import Mathlib

/-!
Shallow embedding of the VideoLogic PowerVR Neon 250 (PMX1) 3D pipeline
emulation (86Box, `vid_neon250_reg.h`): register file, command FIFO,
vertex/polygon assembly, tile binning, rasterization, DMA and the
completion timer, together with proofs of the specification claims.

Machine integers (`uint32_t`, `uint16_t`, `uint8_t`, C `int`) are modelled
as `ℕ`/`ℤ` with explicit `% 2^w` masks where the C width matters.
C `float` quantities (vertex positions, colors, barycentric weights) are
modelled as `ℚ`; every claim proved below either involves only values on
which 32-bit IEEE arithmetic is exact, or is parametric in the computed
value, so the rational model is faithful where it is used.
-/

namespace Neon250

/-- C cast of a nonnegative-width bit pattern: `x &= ~flag` on a `uint32_t`
with `flag = 1 << i`. -/
def bitClear32 (n i : ℕ) : ℕ := n &&& (0xFFFFFFFF ^^^ (1 <<< i))

/-- C `x |= flag` with `flag = 1 << i`. -/
def bitSet (n i : ℕ) : ℕ := n ||| (1 <<< i)

/-- C cast from a floating value to an integer type: truncation toward zero
(`(int)x`, `(uint32_t)x`, ...). -/
def ratTrunc (q : ℚ) : ℤ := Int.tdiv q.num (q.den : ℤ)

/-- C `floorf` followed by an `(int)` cast. -/
def ratFloorZ (q : ℚ) : ℤ := Int.fdiv q.num (q.den : ℤ)

/-- C `ceilf` followed by an `(int)` cast. -/
def ratCeilZ (q : ℚ) : ℤ := -(ratFloorZ (-q))

/-- C cast from `float` to `uint8_t` (in-range values truncate toward zero). -/
def u8OfRat (q : ℚ) : ℕ := (ratTrunc q).toNat % 256

/-- C cast from `float` to `uint16_t` (in-range values truncate toward zero). -/
def u16OfRat (q : ℚ) : ℕ := (ratTrunc q).toNat % 65536

/-- C cast from `float` to `uint32_t` (in-range values truncate toward zero). -/
def u32OfRat (q : ℚ) : ℕ := (ratTrunc q).toNat % 4294967296

/-- C comparison `a > b` where `a` is `int` and `b` is `uint32_t`: the usual
arithmetic conversions convert `a` to `uint32_t` (two's complement). -/
def intGtU32 (a : ℤ) (b : ℕ) : Prop := (a.emod 4294967296) > (b : ℤ)

instance (a : ℤ) (b : ℕ) : Decidable (intGtU32 a b) := by
  unfold intGtU32; infer_instance

/-- Source `edge_function`: `(x2 - x0) * (y1 - y0) - (y2 - y0) * (x1 - x0)`. -/
def edge_function (x0 y0 x1 y1 x2 y2 : ℚ) : ℚ :=
  (x2 - x0) * (y1 - y0) - (y2 - y0) * (x1 - x0)

/-- Source `pvr_vertex_t`: position, color and texture coordinates. -/
@[ext]
structure PvrVertex where
  x : ℚ
  y : ℚ
  z : ℚ
  w : ℚ
  r : ℚ
  g : ℚ
  b : ℚ
  a : ℚ
  u : ℚ
  v : ℚ
deriving DecidableEq

/-- Source `pvr_polygon_t`.  The C field `pvr_vertex_t vertices[3]` is
modelled as a function; only indices 0, 1, 2 are ever read. -/
@[ext]
structure PvrPolygon where
  num_vertices : ℕ
  vertices : ℕ → PvrVertex
  texture_addr : ℕ
  control_flags : ℕ
  z_sort_value : ℕ

/-- Source `pvr_texture_t` (the `data` pointer is never dereferenced by the
pipeline and is omitted). -/
structure PvrTexture where
  width : ℕ
  height : ℕ
  format : ℕ
  addr : ℕ
deriving DecidableEq

/-- Source `pvr_fifo_entry_t`. -/
structure PvrFifoEntry where
  command : ℕ
  data : ℕ
deriving DecidableEq

/-- Source `pvr_tile_t`.  `polygon_list`/`num_polygons` are modelled as a
list of indices into the polygon buffer (`num_polygons` is its length);
`max_polygons` only drives `realloc` growth, which always succeeds. -/
structure PvrTile where
  x : ℤ
  y : ℤ
  width : ℤ
  height : ℤ
  polys : List ℕ

/-- Source `pvr_reg_space_t`: 8 banks of 1024 32-bit words.  Each bank is a
function from word index to value; only indices below 1024 are accessed. -/
structure PvrRegSpace where
  core : ℕ → ℕ
  poly : ℕ → ℕ
  tex : ℕ → ℕ
  render : ℕ → ℕ
  pci : ℕ → ℕ
  video : ℕ → ℕ
  dma : ℕ → ℕ
  interrupt : ℕ → ℕ

/-- Source `pvr_3d_state_t` together with the parts of the surrounding
`neon250_t` device the pipeline reads and writes (`svga.vram` — which is
also the framebuffer the pipeline renders into — `memory_size`,
`svga.cgastat`, `svga.fullchange`, `disp_start`) and the one-shot render
timer (modelled by its pending delay in microseconds). -/
structure PvrState where
  control_reg : ℕ
  status_reg : ℕ
  config_reg : ℕ
  poly_control : ℕ
  poly_status : ℕ
  current_vertex : ℕ
  vertex_buffer : ℕ → PvrVertex
  polygon_buffer : ℕ → PvrPolygon
  num_polygons : ℕ
  tex_control : ℕ
  tex_addr : ℕ
  tex_config : ℕ
  tex_filter : ℕ
  textures : ℕ → PvrTexture
  current_texture : ℕ
  render_control : ℕ
  render_status : ℕ
  z_compare : ℕ
  blend_mode : ℕ
  fifo : ℕ → PvrFifoEntry
  fifo_read_ptr : ℕ
  fifo_write_ptr : ℕ
  fifo_entries : ℕ
  tiles : ℕ → PvrTile
  num_tiles_x : ℕ
  num_tiles_y : ℕ
  tile_size : ℕ
  dma_control : ℕ
  dma_src_addr : ℕ
  dma_dest_addr : ℕ
  dma_size : ℕ
  dma_status : ℕ
  vram : ℕ → ℕ
  fb_width : ℕ
  fb_height : ℕ
  fb_stride : ℕ
  fb_format : ℕ
  z_buffer : ℕ → ℕ
  render_timer : ℕ
  regs : PvrRegSpace
  memory_size : ℕ
  cgastat : ℕ
  disp_start : ℕ
  frame_changed : Bool

/-- Source `pvr_reg_reset`: zero every bank, then re-seed the default
values (chip id/revision, empty-FIFO status, 32x32 tiles + 1K FIFO config,
texture format/filter/wrap defaults, Z and blend defaults). -/
def pvr_reg_reset (s : PvrState) : PvrState :=
  let z : ℕ → ℕ := fun _ => 0
  let core := Function.update (Function.update (Function.update (Function.update z
    (0x000 / 4) 0x004E4543) (0x004 / 4) 0x00000100) (0x00C / 4) 0x40) (0x010 / 4) 0xA
  let tex := Function.update (Function.update (Function.update z
    (0x00C / 4) 0x50) (0x010 / 4) 0x1) (0x014 / 4) 0x5
  let render := Function.update (Function.update z
    (0x008 / 4) 0x11) (0x00C / 4) 0x32
  { s with regs :=
    { core := core
      poly := z
      tex := tex
      render := render
      pci := z
      video := z
      dma := z
      interrupt := z } }

/-- Source `pvr_3d_push_fifo`: reject (and raise the FIFO-full status bit)
when the entry count has reached `PVR_FIFO_SIZE = 4096`; otherwise append
at the write cursor, advance it mod 4096, bump the count, and set the
full bit if the count just reached capacity. -/
def pvr_3d_push_fifo (s : PvrState) (command data : ℕ) : PvrState :=
  if s.fifo_entries ≥ 4096 then
    { s with status_reg := bitSet s.status_reg 4 }
  else
    let s := { s with fifo := Function.update s.fifo s.fifo_write_ptr ⟨command, data⟩ }
    let s := { s with fifo_write_ptr := (s.fifo_write_ptr + 1) % 4096,
                      fifo_entries := s.fifo_entries + 1 }
    if s.fifo_entries ≥ 4096 then { s with status_reg := bitSet s.status_reg 4 } else s

/-- Source `pvr_3d_distribute_to_tiles`: bounding box over the polygon's
vertices, tile range from `(int)min / tile_size` to
`(int)(max + tile_size - 1) / tile_size` (C `int` division truncates
toward zero), clamped to the tile grid, then the polygon (by index) is
appended to every tile in that rectangle (`tileAppend` is the inner loop
body; `realloc` list growth always succeeds). -/
def tileAppend (pidx : ℕ) (s : PvrState) (tile_idx : ℕ) : PvrState :=
  let t := s.tiles tile_idx
  let t := { t with polys := t.polys ++ [pidx] }
  { s with tiles := Function.update s.tiles tile_idx t }

/-- Source `pvr_3d_distribute_to_tiles` proper: see `tileAppend`. -/
def pvr_3d_distribute_to_tiles (s : PvrState) (pidx : ℕ) : PvrState :=
  let poly := s.polygon_buffer pidx
  let bbox := (List.range poly.num_vertices).drop 1 |>.foldl
    (fun (acc : ℚ × ℚ × ℚ × ℚ) i =>
      let v := poly.vertices i
      (if v.x < acc.1 then v.x else acc.1,
       if v.y < acc.2.1 then v.y else acc.2.1,
       if v.x > acc.2.2.1 then v.x else acc.2.2.1,
       if v.y > acc.2.2.2 then v.y else acc.2.2.2))
    ((poly.vertices 0).x, (poly.vertices 0).y, (poly.vertices 0).x, (poly.vertices 0).y)
  let start_tile_x := Int.tdiv (ratTrunc bbox.1) (s.tile_size : ℤ)
  let start_tile_y := Int.tdiv (ratTrunc bbox.2.1) (s.tile_size : ℤ)
  let end_tile_x := Int.tdiv (ratTrunc (bbox.2.2.1 + ((s.tile_size : ℚ) - 1))) (s.tile_size : ℤ)
  let end_tile_y := Int.tdiv (ratTrunc (bbox.2.2.2 + ((s.tile_size : ℚ) - 1))) (s.tile_size : ℤ)
  let start_tile_x := if start_tile_x < 0 then 0 else start_tile_x
  let start_tile_y := if start_tile_y < 0 then 0 else start_tile_y
  let end_tile_x := if end_tile_x ≥ (s.num_tiles_x : ℤ) then (s.num_tiles_x : ℤ) - 1 else end_tile_x
  let end_tile_y := if end_tile_y ≥ (s.num_tiles_y : ℤ) then (s.num_tiles_y : ℤ) - 1 else end_tile_y
  (List.range (end_tile_y + 1 - start_tile_y).toNat).foldl
    (fun s dy =>
      (List.range (end_tile_x + 1 - start_tile_x).toNat).foldl
        (fun s dx =>
          tileAppend pidx s ((start_tile_y + dy) * s.num_tiles_x + (start_tile_x + dx)).toNat)
        s)
    s

/-- Source `pvr_3d_setup_polygon`: bail out at `PVR_MAX_POLYGONS = 2048`;
otherwise build the polygon from the first three vertex-buffer slots,
stamp the current texture address and polygon-control flags, compute the
z-sort key `(uint32_t)((z0 + z1 + z2) * 1365.0f)`, distribute it to the
tiles, and bump the polygon count.  `newPoly` is the polygon value built
and stored. -/
def newPoly (s : PvrState) : PvrPolygon :=
  { num_vertices := 3
    vertices := fun i => s.vertex_buffer i
    texture_addr := (s.textures s.current_texture).addr
    control_flags := s.poly_control
    z_sort_value := u32OfRat
      (((s.vertex_buffer 0).z + (s.vertex_buffer 1).z + (s.vertex_buffer 2).z) * 1365) }

/-- Source `pvr_3d_setup_polygon` proper: see `newPoly`. -/
def pvr_3d_setup_polygon (s : PvrState) : PvrState :=
  if s.num_polygons ≥ 2048 then s
  else
    let s := { s with polygon_buffer := Function.update s.polygon_buffer s.num_polygons (newPoly s) }
    let s := pvr_3d_distribute_to_tiles s s.num_polygons
    { s with num_polygons := s.num_polygons + 1 }

/-- Barycentric weight `w0` of the pixel center `(x + 0.5, y + 0.5)` in
`pvr_3d_draw_triangle`: `edge_function(x1, y1, x2, y2, px, py) * inv_area`. -/
def baryW0 (poly : PvrPolygon) (inv_area : ℚ) (x y : ℕ) : ℚ :=
  edge_function (poly.vertices 1).x (poly.vertices 1).y (poly.vertices 2).x (poly.vertices 2).y
    ((x : ℚ) + 1/2) ((y : ℚ) + 1/2) * inv_area

/-- Barycentric weight `w1`: `edge_function(x2, y2, x0, y0, px, py) * inv_area`. -/
def baryW1 (poly : PvrPolygon) (inv_area : ℚ) (x y : ℕ) : ℚ :=
  edge_function (poly.vertices 2).x (poly.vertices 2).y (poly.vertices 0).x (poly.vertices 0).y
    ((x : ℚ) + 1/2) ((y : ℚ) + 1/2) * inv_area

/-- Barycentric weight `w2`: `edge_function(x0, y0, x1, y1, px, py) * inv_area`. -/
def baryW2 (poly : PvrPolygon) (inv_area : ℚ) (x y : ℕ) : ℚ :=
  edge_function (poly.vertices 0).x (poly.vertices 0).y (poly.vertices 1).x (poly.vertices 1).y
    ((x : ℚ) + 1/2) ((y : ℚ) + 1/2) * inv_area

/-- Interpolated depth of a pixel converted to 16-bit fixed point:
`(uint16_t)(z * 65535.0f)` with `z = w0*z0 + w1*z1 + w2*z2`. -/
def pixelDepth (poly : PvrPolygon) (inv_area : ℚ) (x y : ℕ) : ℕ :=
  u16OfRat ((baryW0 poly inv_area x y * (poly.vertices 0).z +
             baryW1 poly inv_area x y * (poly.vertices 1).z +
             baryW2 poly inv_area x y * (poly.vertices 2).z) * 65535)

/-- Shading portion of the rasterizer loop body: texture / Gouraud / flat
branches producing the packed ARGB color word. -/
def shadeColor (poly : PvrPolygon) (w0 w1 w2 : ℚ) : ℕ :=
  if poly.control_flags &&& 0x2 ≠ 0 then
    -- textured: interpolated UVs are computed and clamped but the texel
    -- fetch is a constant white placeholder
    let tex_color : ℕ := 0x00FFFFFF
    if poly.control_flags &&& 0x8 ≠ 0 then
      let r := w0 * (poly.vertices 0).r + w1 * (poly.vertices 1).r + w2 * (poly.vertices 2).r
      let g := w0 * (poly.vertices 0).g + w1 * (poly.vertices 1).g + w2 * (poly.vertices 2).g
      let b := w0 * (poly.vertices 0).b + w1 * (poly.vertices 1).b + w2 * (poly.vertices 2).b
      let a := w0 * (poly.vertices 0).a + w1 * (poly.vertices 1).a + w2 * (poly.vertices 2).a
      let tr := (tex_color >>> 16) &&& 0xFF
      let tg := (tex_color >>> 8) &&& 0xFF
      let tb := tex_color &&& 0xFF
      let r := (r * (tr : ℚ)) / 255
      let g := (g * (tg : ℚ)) / 255
      let b := (b * (tb : ℚ)) / 255
      (u8OfRat (a * 255)) <<< 24 ||| (u8OfRat (r * 255)) <<< 16 |||
        (u8OfRat (g * 255)) <<< 8 ||| u8OfRat (b * 255)
    else
      tex_color
  else if poly.control_flags &&& 0x8 ≠ 0 then
    let r := w0 * (poly.vertices 0).r + w1 * (poly.vertices 1).r + w2 * (poly.vertices 2).r
    let g := w0 * (poly.vertices 0).g + w1 * (poly.vertices 1).g + w2 * (poly.vertices 2).g
    let b := w0 * (poly.vertices 0).b + w1 * (poly.vertices 1).b + w2 * (poly.vertices 2).b
    let a := w0 * (poly.vertices 0).a + w1 * (poly.vertices 1).a + w2 * (poly.vertices 2).a
    (u8OfRat (a * 255)) <<< 24 ||| (u8OfRat (r * 255)) <<< 16 |||
      (u8OfRat (g * 255)) <<< 8 ||| u8OfRat (b * 255)
  else
    (u8OfRat ((poly.vertices 0).a * 255)) <<< 24 ||| (u8OfRat ((poly.vertices 0).r * 255)) <<< 16 |||
      (u8OfRat ((poly.vertices 0).g * 255)) <<< 8 ||| u8OfRat ((poly.vertices 0).b * 255)

/-- Framebuffer write of the rasterizer loop body: little-endian byte
writes into VRAM at `offset = y * fb_stride + x` scaled by the bytes per
pixel of the current format (16-bit RGB565, 24-bit BGR bytes, 32-bit
packed ARGB word; other depths are no-ops). -/
def writePixel (s : PvrState) (color : ℕ) (x y : ℕ) : PvrState :=
  let offset := y * s.fb_stride + x
  if s.fb_format = 16 then
    let r := ((color >>> 16) &&& 0xFF) >>> 3
    let g := ((color >>> 8) &&& 0xFF) >>> 2
    let b := (color &&& 0xFF) >>> 3
    let pixel := (r <<< 11) ||| (g <<< 5) ||| b
    let m := Function.update s.vram (offset * 2) (pixel % 256)
    let m := Function.update m (offset * 2 + 1) (pixel / 256 % 256)
    { s with vram := m }
  else if s.fb_format = 24 then
    let m := Function.update s.vram (offset * 3) (color &&& 0xFF)
    let m := Function.update m (offset * 3 + 1) ((color >>> 8) &&& 0xFF)
    let m := Function.update m (offset * 3 + 2) ((color >>> 16) &&& 0xFF)
    { s with vram := m }
  else if s.fb_format = 32 then
    let m := Function.update s.vram (offset * 4) (color % 256)
    let m := Function.update m (offset * 4 + 1) (color / 256 % 256)
    let m := Function.update m (offset * 4 + 2) (color / 65536 % 256)
    let m := Function.update m (offset * 4 + 3) (color / 16777216 % 256)
    { s with vram := m }
  else s

/-- Loop body of `pvr_3d_draw_triangle` for one pixel `(x, y)`: barycentric
coverage test, Z interpolation, optional depth test/write, shading, and
the format-specific framebuffer write. -/
def drawPixel (s : PvrState) (poly : PvrPolygon) (inv_area : ℚ) (x y : ℕ) : PvrState :=
  let w0 := baryW0 poly inv_area x y
  let w1 := baryW1 poly inv_area x y
  let w2 := baryW2 poly inv_area x y
  if w0 < 0 ∨ w1 < 0 ∨ w2 < 0 then s
  else
    let depth := pixelDepth poly inv_area x y
    if poly.control_flags &&& 0x1 ≠ 0 then
      let zidx := y * s.fb_width + x
      if depth > s.z_buffer zidx then s
      else
        let s := { s with z_buffer := Function.update s.z_buffer zidx depth }
        writePixel s (shadeColor poly w0 w1 w2) x y
    else
      writePixel s (shadeColor poly w0 w1 w2) x y

/-- Source `pvr_3d_draw_triangle`: bounding box from floor/ceil of the
vertex min/max, clipped to the framebuffer (the upper clips compare a C
`int` against a `uint32_t`, hence `intGtU32`), degeneracy check
`fabsf(area) < 0.000001f` (the rational stands for that float literal),
then the per-pixel loop. -/
def pvr_3d_draw_triangle (s : PvrState) (poly : PvrPolygon) : PvrState :=
  let x0 := (poly.vertices 0).x
  let y0 := (poly.vertices 0).y
  let x1 := (poly.vertices 1).x
  let y1 := (poly.vertices 1).y
  let x2 := (poly.vertices 2).x
  let y2 := (poly.vertices 2).y
  let minX := ratFloorZ (min (min x0 x1) x2)
  let minY := ratFloorZ (min (min y0 y1) y2)
  let maxX := ratCeilZ (max (max x0 x1) x2)
  let maxY := ratCeilZ (max (max y0 y1) y2)
  let minX := if minX < 0 then 0 else minX
  let minY := if minY < 0 then 0 else minY
  let maxX := if intGtU32 maxX s.fb_width then (s.fb_width : ℤ) else maxX
  let maxY := if intGtU32 maxY s.fb_height then (s.fb_height : ℤ) else maxY
  let area := edge_function x0 y0 x1 y1 x2 y2
  if |area| < 1/1000000 then s
  else
    let inv_area := 1 / area
    (List.range (maxY - minY).toNat).foldl
      (fun s dy =>
        (List.range (maxX - minX).toNat).foldl
          (fun s dx => drawPixel s poly inv_area ((minX + dx).toNat) ((minY + dy).toNat))
          s)
      s

/-- Source `pvr_3d_render_polygon`: backface cull by the sign of the 2D
cross product when either cull flag is set, then draw the triangle. -/
def pvr_3d_render_polygon (s : PvrState) (pidx : ℕ) : PvrState :=
  let poly := s.polygon_buffer pidx
  if poly.control_flags &&& 0xC0 ≠ 0 then
    let ax := (poly.vertices 1).x - (poly.vertices 0).x
    let ay := (poly.vertices 1).y - (poly.vertices 0).y
    let bx := (poly.vertices 2).x - (poly.vertices 0).x
    let by' := (poly.vertices 2).y - (poly.vertices 0).y
    let cross := ax * by' - ay * bx
    if (cross < 0 ∧ poly.control_flags &&& 0x80 ≠ 0) ∨
       (cross > 0 ∧ poly.control_flags &&& 0x40 ≠ 0) then s
    else pvr_3d_draw_triangle s poly
  else pvr_3d_draw_triangle s poly

/-- The in-place bubble sort of `pvr_3d_render_tile`, descending by
`z_sort_value` (stable: adjacent swaps only on strict `<`). -/
def pvrBubbleSort (z : ℕ → ℕ) (l : List ℕ) : List ℕ :=
  let n := l.length
  ((List.range (n - 1)).foldl
    (fun (a : Array ℕ) i =>
      (List.range (n - i - 1)).foldl
        (fun (a : Array ℕ) j =>
          if z (a.getD j 0) < z (a.getD (j + 1) 0) then
            (a.setD j (a.getD (j + 1) 0)).setD (j + 1) (a.getD j 0)
          else a)
        a)
    l.toArray).toList

/-- Source `pvr_3d_render_tile`: sort the tile's polygon list by z-sort
key (furthest first) and render each polygon in that order. -/
def pvr_3d_render_tile (s : PvrState) (tidx : ℕ) : PvrState :=
  let sorted := pvrBubbleSort (fun p => (s.polygon_buffer p).z_sort_value) (s.tiles tidx).polys
  let t := s.tiles tidx
  let s := { s with tiles := Function.update s.tiles tidx { t with polys := sorted } }
  sorted.foldl (fun s p => pvr_3d_render_polygon s p) s

/-- Row-major tile loop of `pvr_3d_render_scene`: render every non-empty
tile. -/
def renderTilesLoop (s : PvrState) : PvrState :=
  (List.range s.num_tiles_y).foldl
    (fun s y =>
      (List.range s.num_tiles_x).foldl
        (fun s x =>
          let tile_idx := y * s.num_tiles_x + x
          if (s.tiles tile_idx).polys.length > 0 then pvr_3d_render_tile s tile_idx else s)
        s)
    s

/-- Source `pvr_3d_render_scene`: clear the Z-buffer to 0xFFFF over the
framebuffer extent, render every non-empty tile in row-major order, reset
the global and per-tile polygon counts, and flag the display as changed. -/
def pvr_3d_render_scene (s : PvrState) : PvrState :=
  let s := { s with z_buffer := fun i =>
    if i < s.fb_width * s.fb_height then 65535 else s.z_buffer i }
  let s := renderTilesLoop s
  let s := { s with num_polygons := 0 }
  let s := { s with tiles := fun i =>
    if i < s.num_tiles_x * s.num_tiles_y then { s.tiles i with polys := [] } else s.tiles i }
  { s with frame_changed := true }

/-- Source `pvr_reg_render_complete`: clear the core busy/render-busy
status bits, set the render-complete bit in the render status register,
and raise the render-done interrupt when unmasked. -/
def pvr_reg_render_complete (s : PvrState) : PvrState :=
  let r := s.regs
  let r := { r with core := Function.update r.core 3 (r.core 3 &&& (0xFFFFFFFF ^^^ 0x9)) }
  let r := { r with render := Function.update r.render 1 (bitSet (r.render 1) 0) }
  let iv := if r.interrupt 1 &&& 0x2 ≠ 0 then
    Function.update r.interrupt 0 (bitSet (r.interrupt 0) 1) else r.interrupt
  let r := { r with interrupt := iv }
  { s with regs := r }

/-- Source `pvr_reg_dma_complete`: clear the DMA-busy bit and set the
DMA-done bit in the banked DMA status word, clear the core DMA-busy bit,
and raise the DMA-done interrupt when unmasked. -/
def pvr_reg_dma_complete (s : PvrState) : PvrState :=
  let r := s.regs
  let r := { r with dma := Function.update r.dma 1 (bitSet (bitClear32 (r.dma 1) 0) 1) }
  let r := { r with core := Function.update r.core 3 (bitClear32 (r.core 3) 4) }
  let iv := if r.interrupt 1 &&& 0x4 ≠ 0 then
    Function.update r.interrupt 0 (bitSet (r.interrupt 0) 2) else r.interrupt
  let r := { r with interrupt := iv }
  { s with regs := r }

/-- Source `pvr_3d_dma_transfer`: read the transfer parameters, update the
banked status via `pvr_reg_dma_complete`, clamp the size to 16 MiB, copy
within VRAM only when source, destination and destination + size all lie
inside the video memory (the sum is a `uint32_t` addition), then clear the
DMA-active bits and set the complete flag in `dma_status`. -/
def pvr_3d_dma_transfer (s : PvrState) : PvrState :=
  let src_addr := s.dma_src_addr
  let dest_addr := s.dma_dest_addr
  let size := s.dma_size
  let s := pvr_reg_dma_complete s
  let size := if size > 16777216 then 16777216 else size
  let s :=
    if src_addr < s.memory_size ∧ dest_addr < s.memory_size ∧
       (dest_addr + size) % 4294967296 ≤ s.memory_size then
      { s with vram := fun i =>
          if dest_addr ≤ i ∧ i < dest_addr + size then s.vram (src_addr + (i - dest_addr))
          else s.vram i }
    else s
  let s := { s with status_reg := bitClear32 s.status_reg 5 }
  { s with dma_status := bitSet (bitClear32 s.dma_status 0) 1 }

/-- Decoded packed vertex X: `((data >> 0) & 0x3ff) / 1024.0f * fb_width`. -/
def decodeVX (w data : ℕ) : ℚ :=
  (((data >>> 0) &&& 0x3ff : ℕ) : ℚ) / 1024 * (w : ℚ)

/-- Decoded packed vertex Y: `((data >> 10) & 0x3ff) / 1024.0f * fb_height`. -/
def decodeVY (h data : ℕ) : ℚ :=
  (((data >>> 10) &&& 0x3ff : ℕ) : ℚ) / 1024 * (h : ℚ)

/-- Decoded packed vertex Z: `((data >> 20) & 0xfff) / 4096.0f`. -/
def decodeVZ (data : ℕ) : ℚ :=
  (((data >>> 20) &&& 0xfff : ℕ) : ℚ) / 4096

/-- The vertex command writes the decoded position into the open vertex
slot, leaving color and texture coordinates as they were and defaulting
`w` to 1. -/
def decodeVertex (w h data : ℕ) (old : PvrVertex) : PvrVertex :=
  { old with x := decodeVX w data, y := decodeVY h data, z := decodeVZ data, w := 1 }

/-- Tail of the vertex command: on the third vertex, finalize the polygon
and reset the open-vertex count to 0. -/
def finishTriangle (s : PvrState) : PvrState :=
  let s := pvr_3d_setup_polygon s
  { s with current_vertex := 0 }

/-- Render-start command (0x10): raise the running and busy status bits,
render the scene synchronously, and arm the completion timer
(`timer_set_delay_u64(&render_timer, 200 * TIMER_USEC)`). -/
def startRender (s : PvrState) : PvrState :=
  let s := { s with status_reg := bitSet (bitSet s.status_reg 0) 1 }
  let s := pvr_3d_render_scene s
  { s with render_timer := 200 }

/-- Command dispatch of `pvr_3d_process_fifo` (the `switch (command)` body):
vertex accumulation and polygon finalization (0x01), texture sub-commands
(0x02), vertex color decode (0x03), render start (0x10); anything else is
logged and ignored. -/
def execCommand (s : PvrState) (command data : ℕ) : PvrState :=
  if command = 0x01 then
    let nv := decodeVertex s.fb_width s.fb_height data (s.vertex_buffer s.current_vertex)
    let s := { s with vertex_buffer := Function.update s.vertex_buffer s.current_vertex nv }
    let s := { s with current_vertex := s.current_vertex + 1 }
    if s.current_vertex ≥ 3 then finishTriangle s
    else s
  else if command = 0x02 then
    let tex_cmd_type := (data >>> 24) &&& 0xff
    if tex_cmd_type = 0x01 then
      let t := s.textures s.current_texture
      let t := { t with addr := data &&& 0xffffff }
      { s with textures := Function.update s.textures s.current_texture t }
    else if tex_cmd_type = 0x02 then
      let u : ℚ := (((data >>> 0) &&& 0xfff : ℕ) : ℚ) / 4096
      let v : ℚ := (((data >>> 12) &&& 0xfff : ℕ) : ℚ) / 4096
      let old := s.vertex_buffer s.current_vertex
      let nv := { old with u := u, v := v }
      { s with vertex_buffer := Function.update s.vertex_buffer s.current_vertex nv }
    else if tex_cmd_type = 0x03 then
      let t := s.textures s.current_texture
      let t := { t with format := data &&& 0xffffff }
      { s with textures := Function.update s.textures s.current_texture t }
    else s
  else if command = 0x03 then
    let old := s.vertex_buffer s.current_vertex
    let nv := { old with r := (((data >>> 0) &&& 0xff : ℕ) : ℚ) / 255,
                         g := (((data >>> 8) &&& 0xff : ℕ) : ℚ) / 255,
                         b := (((data >>> 16) &&& 0xff : ℕ) : ℚ) / 255,
                         a := (((data >>> 24) &&& 0xff : ℕ) : ℚ) / 255 }
    { s with vertex_buffer := Function.update s.vertex_buffer s.current_vertex nv }
  else if command = 0x10 then startRender s
  else s

/-- Per-entry bookkeeping tail of the `pvr_3d_process_fifo` loop body:
advance the read cursor mod 4096, decrement the entry count, clear the
FIFO-full status bit, and set the FIFO-empty bit when the count reaches 0. -/
def fifoAdvance (s : PvrState) : PvrState :=
  let s := { s with fifo_read_ptr := (s.fifo_read_ptr + 1) % 4096,
                    fifo_entries := s.fifo_entries - 1 }
  let s := { s with status_reg := bitClear32 s.status_reg 4 }
  if s.fifo_entries = 0 then { s with status_reg := bitSet s.status_reg 3 } else s

/-- Bounded drain loop of `pvr_3d_process_fifo` with explicit fuel
(initially 32), returning the drained state together with the number of
entries processed.  Each step executes the command at the read cursor and
then performs the `fifoAdvance` bookkeeping. -/
def processFifoAux : ℕ → PvrState → PvrState × ℕ
  | 0, s => (s, 0)
  | fuel + 1, s =>
    if s.fifo_entries = 0 then (s, 0)
    else
      let e := s.fifo s.fifo_read_ptr
      let s1 := fifoAdvance (execCommand s e.command e.data)
      let r := processFifoAux fuel s1
      (r.1, r.2 + 1)

/-- Source `pvr_3d_process_fifo`: process up to 32 queued commands. -/
def pvr_3d_process_fifo (s : PvrState) : PvrState :=
  (processFifoAux 32 s).1

/-- Source `pvr_3d_process_command`: push onto the FIFO, clear the
FIFO-empty status bit if the FIFO is now non-empty, and drain the FIFO
unless the running status bit is set. -/
def pvr_3d_process_command (s : PvrState) (command data : ℕ) : PvrState :=
  let s := pvr_3d_push_fifo s command data
  let s := if s.fifo_entries > 0 then { s with status_reg := bitClear32 s.status_reg 3 } else s
  if s.status_reg &&& 0x1 = 0 then pvr_3d_process_fifo s else s

/-- Source `pvr_3d_reset`: reset every pipeline field to its initial value
(status = FIFO-empty), reset the register space, and clear every tile's
polygon count. -/
def pvr_3d_reset (s : PvrState) : PvrState :=
  let s := { s with control_reg := 0, status_reg := 0x8, config_reg := 0,
                    poly_control := 0, poly_status := 0, current_vertex := 0,
                    num_polygons := 0,
                    tex_control := 0, tex_addr := 0, tex_config := 0, tex_filter := 0,
                    current_texture := 0,
                    render_control := 0, render_status := 0, z_compare := 0, blend_mode := 0,
                    fifo_read_ptr := 0, fifo_write_ptr := 0, fifo_entries := 0,
                    dma_control := 0, dma_src_addr := 0, dma_dest_addr := 0,
                    dma_size := 0, dma_status := 0 }
  let s := pvr_reg_reset s
  { s with tiles := fun i =>
      if i < s.num_tiles_x * s.num_tiles_y then { s.tiles i with polys := [] } else s.tiles i }

/-- Source `pvr_reg_write`: decode bank = bits 15:12 and offset =
bits 11:0 of the (32-bit) address, reject unaligned offsets, then apply
the bank-specific side effects of the 8 register banks. -/
def pvr_reg_write (s : PvrState) (addr val : ℕ) : PvrState :=
  let addr := addr % 4294967296
  let val := val % 4294967296
  let reg_set := (addr >>> 12) &&& 0xF
  let reg_addr := addr &&& 0xFFF
  let reg_index := reg_addr / 4
  if reg_addr &&& 3 ≠ 0 then s
  else if reg_set = 0 then
    if reg_addr = 0x008 then
      if val &&& 0x1 ≠ 0 then
        pvr_3d_reset (pvr_reg_reset s)
      else
        let r := s.regs
        let r := { r with core := Function.update r.core reg_index val }
        let r := if val &&& 0x2 ≠ 0 then { r with poly := fun _ => 0 } else r
        let r := if val &&& 0x4 ≠ 0 then { r with tex := fun _ => 0 } else r
        let r := if val &&& 0x8 ≠ 0 then { r with render := fun _ => 0 } else r
        let r := if val &&& 0x20 ≠ 0 then { r with dma := fun _ => 0 } else r
        { s with regs := r }
    else if reg_addr = 0x00C then s
    else if reg_addr = 0x010 then
      let s := { s with regs := { s.regs with core := Function.update s.regs.core reg_index val } }
      let ts := if val &&& 0x3 = 0 then 8 else if val &&& 0x3 = 1 then 16
                else if val &&& 0x3 = 2 then 32 else 64
      { s with tile_size := ts }
    else
      { s with regs := { s.regs with core := Function.update s.regs.core reg_index val } }
  else if reg_set = 1 then
    let s := { s with regs := { s.regs with poly := Function.update s.regs.poly reg_index val } }
    if reg_addr = 0x000 then { s with poly_control := val }
    else if reg_addr = 0x008 then pvr_3d_process_command s 0x01 val
    else if reg_addr = 0x00C then pvr_3d_process_command s 0x03 val
    else if reg_addr = 0x010 then pvr_3d_process_command s 0x04 val
    else if reg_addr = 0x014 then pvr_3d_process_command s 0x02 val
    else s
  else if reg_set = 2 then
    let s := { s with regs := { s.regs with tex := Function.update s.regs.tex reg_index val } }
    if reg_addr = 0x000 then { s with tex_control := val }
    else if reg_addr = 0x008 then { s with tex_addr := val }
    else if reg_addr = 0x00C then
      let s := { s with tex_config := val }
      let format := val &&& 0xF
      let size_code := (val >>> 4) &&& 0xF
      let dim := if size_code = 0 then 8 else if size_code = 1 then 16
                 else if size_code = 2 then 32 else if size_code = 3 then 64
                 else if size_code = 4 then 128 else if size_code = 5 then 256
                 else if size_code = 6 then 512 else if size_code = 7 then 1024 else 256
      let t := s.textures s.current_texture
      let t := { t with width := dim, height := dim, format := format }
      { s with textures := Function.update s.textures s.current_texture t }
    else if reg_addr = 0x010 then { s with tex_filter := val }
    else s
  else if reg_set = 3 then
    let s := { s with regs := { s.regs with render := Function.update s.regs.render reg_index val } }
    if reg_addr = 0x000 then
      let s := { s with render_control := val }
      let s :=
        if val &&& 0x1 ≠ 0 then
          let c := Function.update s.regs.core 3 (bitSet (bitSet (s.regs.core 3) 0) 3)
          let s := { s with regs := { s.regs with core := c } }
          pvr_3d_process_command s 0x10 0
        else s
      if val &&& 0x4 ≠ 0 then
        let r := { s.regs with render := fun _ => 0 }
        let r := { r with render := Function.update r.render reg_index (val &&& (0xFFFFFFFF ^^^ 0x4)) }
        let r := { r with core := Function.update r.core 3 (r.core 3 &&& (0xFFFFFFFF ^^^ 0x9)) }
        { s with regs := r }
      else s
    else if reg_addr = 0x008 then { s with z_compare := val }
    else if reg_addr = 0x00C then { s with blend_mode := val }
    else s
  else if reg_set = 4 then
    { s with regs := { s.regs with pci := Function.update s.regs.pci reg_index val } }
  else if reg_set = 5 then
    let s := { s with regs := { s.regs with video := Function.update s.regs.video reg_index val } }
    if reg_addr = 0x018 then { s with disp_start := val }
    else if reg_addr = 0x01C then
      if val ≠ s.fb_stride then { s with fb_stride := val } else s
    else s
  else if reg_set = 6 then
    let s := { s with regs := { s.regs with dma := Function.update s.regs.dma reg_index val } }
    if reg_addr = 0x000 then
      let s := { s with dma_control := val }
      let s :=
        if val &&& 0x1 ≠ 0 then
          let r := { s.regs with dma := Function.update s.regs.dma 1 (bitSet (s.regs.dma 1) 0) }
          let r := { r with core := Function.update r.core 3 (bitSet (r.core 3) 4) }
          pvr_3d_dma_transfer { s with regs := r }
        else s
      if val &&& 0x4 ≠ 0 then
        let r := { s.regs with dma := fun _ => 0 }
        let r := { r with dma := Function.update r.dma reg_index (val &&& (0xFFFFFFFF ^^^ 0x4)) }
        let r := { r with dma := Function.update r.dma 1 (bitClear32 (r.dma 1) 0) }
        let r := { r with core := Function.update r.core 3 (bitClear32 (r.core 3) 4) }
        { s with regs := r }
      else s
    else if reg_addr = 0x008 then { s with dma_src_addr := val }
    else if reg_addr = 0x00C then { s with dma_dest_addr := val }
    else if reg_addr = 0x010 then { s with dma_size := val }
    else s
  else if reg_set = 7 then
    if reg_addr = 0x004 then
      { s with regs := { s.regs with interrupt := Function.update s.regs.interrupt reg_index val } }
    else if reg_addr = 0x008 then
      let iv := Function.update s.regs.interrupt 0 (s.regs.interrupt 0 &&& (0xFFFFFFFF ^^^ val))
      { s with regs := { s.regs with interrupt := iv } }
    else
      { s with regs := { s.regs with interrupt := Function.update s.regs.interrupt reg_index val } }
  else s

/-- Source `pvr_reg_read`: same bank/offset decode; unaligned reads return
the sentinel 0xFFFFFFFF; a core status read first refreshes the live
vblank bit from the host CRT status; undefined banks read as 0xFFFFFFFF.
Returns the value together with the (possibly updated) state. -/
def pvr_reg_read (s : PvrState) (addr : ℕ) : ℕ × PvrState :=
  let addr := addr % 4294967296
  let reg_set := (addr >>> 12) &&& 0xF
  let reg_addr := addr &&& 0xFFF
  let reg_index := reg_addr / 4
  if reg_addr &&& 3 ≠ 0 then (0xFFFFFFFF, s)
  else if reg_set = 0 then
    let s :=
      if reg_addr = 0x00C then
        if s.cgastat &&& 8 ≠ 0 then
          let c := Function.update s.regs.core reg_index (bitSet (s.regs.core reg_index) 5)
          { s with regs := { s.regs with core := c } }
        else
          let c := Function.update s.regs.core reg_index (bitClear32 (s.regs.core reg_index) 5)
          { s with regs := { s.regs with core := c } }
      else s
    (s.regs.core reg_index, s)
  else if reg_set = 1 then (s.regs.poly reg_index, s)
  else if reg_set = 2 then (s.regs.tex reg_index, s)
  else if reg_set = 3 then (s.regs.render reg_index, s)
  else if reg_set = 4 then (s.regs.pci reg_index, s)
  else if reg_set = 5 then (s.regs.video reg_index, s)
  else if reg_set = 6 then (s.regs.dma reg_index, s)
  else if reg_set = 7 then (s.regs.interrupt reg_index, s)
  else (0xFFFFFFFF, s)

/-- Status/bookkeeping prefix of `pvr_3d_timer_callback`: clear the
running and busy status bits, update the banked registers for render
completion, and set the render-complete bit. -/
def timerCallbackPre (s : PvrState) : PvrState :=
  let s := { s with status_reg := bitClear32 (bitClear32 s.status_reg 0) 1 }
  let s := pvr_reg_render_complete s
  { s with render_status := bitSet s.render_status 0 }

/-- Source `pvr_3d_timer_callback`: completion bookkeeping followed by a
re-drain of any commands queued while busy. -/
def pvr_3d_timer_callback (s : PvrState) : PvrState :=
  pvr_3d_process_fifo (timerCallbackPre s)

/-- Legacy register-decode chain of `pvr_3d_write` (the `if/else` ranges on
`PVR_REG_BASE = 0x00100000` .. `PVR_DMA_BASE + 0x1000 = 0x00105000`
executed after the call to `pvr_reg_write`).  Its bodies are embedded
faithfully; because the address was masked to 20 bits beforehand, every
range guard is false at run time (proved below for claim C2). -/
def pvr_3d_write_legacy (s : PvrState) (addr val : ℕ) : PvrState :=
  if 0x100000 ≤ addr ∧ addr < 0x101000 then
    let reg_addr := addr - 0x100000
    if reg_addr = 0x00 then (if val &&& 0x1 ≠ 0 then pvr_3d_reset s else s)
    else if reg_addr = 0x04 then s
    else if reg_addr = 0x08 then { s with config_reg := val }
    else s
  else if 0x101000 ≤ addr ∧ addr < 0x102000 then
    let reg_addr := addr - 0x101000
    if reg_addr = 0x00 then pvr_3d_process_command s 0x01 val
    else if reg_addr = 0x04 then pvr_3d_process_command s 0x02 val
    else if reg_addr = 0x08 then { s with poly_control := val }
    else s
  else if 0x102000 ≤ addr ∧ addr < 0x103000 then
    let reg_addr := addr - 0x102000
    if reg_addr = 0x00 then { s with tex_control := val }
    else if reg_addr = 0x04 then { s with tex_addr := val }
    else if reg_addr = 0x08 then { s with tex_config := val }
    else if reg_addr = 0x0C then { s with tex_filter := val }
    else s
  else if 0x103000 ≤ addr ∧ addr < 0x104000 then
    let reg_addr := addr - 0x103000
    if reg_addr = 0x00 then
      let s := { s with render_control := val }
      if val &&& 0x1 ≠ 0 then
        let s := { s with status_reg := bitSet (bitSet s.status_reg 0) 1 }
        { s with render_timer := 200 }
      else s
    else if reg_addr = 0x08 then { s with z_compare := val }
    else if reg_addr = 0x0C then { s with blend_mode := val }
    else s
  else if 0x104000 ≤ addr ∧ addr < 0x105000 then
    let reg_addr := addr - 0x104000
    if reg_addr = 0x00 then
      let s := { s with dma_control := val }
      if val &&& 0x1 ≠ 0 then
        let s := { s with status_reg := bitSet s.status_reg 5 }
        let s := { s with dma_status := bitSet s.dma_status 0 }
        pvr_3d_dma_transfer s
      else s
    else if reg_addr = 0x04 then { s with dma_src_addr := val }
    else if reg_addr = 0x08 then { s with dma_dest_addr := val }
    else if reg_addr = 0x0C then { s with dma_size := val }
    else s
  else s

/-- Source `pvr_3d_write`: mask the address to the 20-bit 3D register
space (`addr &= 0xfffff`), route everything through the banked
`pvr_reg_write`, then run the legacy decode chain. -/
def pvr_3d_write (s : PvrState) (addr val : ℕ) : PvrState :=
  let addr := addr % 1048576
  let s := pvr_reg_write s addr val
  pvr_3d_write_legacy s addr val

/-- Source `pvr_3d_read`: mask the address to 20 bits and return the
banked `pvr_reg_read` immediately; the legacy read switch that follows
this `return` in the source is unreachable and has no semantics. -/
def pvr_3d_read (s : PvrState) (addr : ℕ) : ℕ × PvrState :=
  pvr_reg_read s (addr % 1048576)

/-- A vertex with every component zero. -/
def zeroVertex : PvrVertex := ⟨0, 0, 0, 0, 0, 0, 0, 0, 0, 0⟩

/-- A polygon with every component zero. -/
def zeroPolygon : PvrPolygon := ⟨0, fun _ => zeroVertex, 0, 0, 0⟩

/-- A register space with every word zero. -/
def zeroRegs : PvrRegSpace :=
  ⟨fun _ => 0, fun _ => 0, fun _ => 0, fun _ => 0, fun _ => 0, fun _ => 0, fun _ => 0, fun _ => 0⟩

/-- A concrete all-zero pipeline state used to instantiate witnesses. -/
def baseState : PvrState where
  control_reg := 0
  status_reg := 0
  config_reg := 0
  poly_control := 0
  poly_status := 0
  current_vertex := 0
  vertex_buffer := fun _ => zeroVertex
  polygon_buffer := fun _ => zeroPolygon
  num_polygons := 0
  tex_control := 0
  tex_addr := 0
  tex_config := 0
  tex_filter := 0
  textures := fun _ => ⟨0, 0, 0, 0⟩
  current_texture := 0
  render_control := 0
  render_status := 0
  z_compare := 0
  blend_mode := 0
  fifo := fun _ => ⟨0, 0⟩
  fifo_read_ptr := 0
  fifo_write_ptr := 0
  fifo_entries := 0
  tiles := fun _ => ⟨0, 0, 0, 0, []⟩
  num_tiles_x := 0
  num_tiles_y := 0
  tile_size := 32
  dma_control := 0
  dma_src_addr := 0
  dma_dest_addr := 0
  dma_size := 0
  dma_status := 0
  vram := fun _ => 0
  fb_width := 0
  fb_height := 0
  fb_stride := 0
  fb_format := 0
  z_buffer := fun _ => 0
  render_timer := 0
  regs := zeroRegs
  memory_size := 0
  cgastat := 0
  disp_start := 0
  frame_changed := false

/-- Concrete state whose DMA source address is outside video memory. -/
def dmaFailState : PvrState := { baseState with dma_src_addr := 100, memory_size := 16 }

/-- The FIFO-relevant projection of the state: buffer, read/write cursors
and entry count.  Command execution never touches any of these. -/
def fifoView (s : PvrState) : (ℕ → PvrFifoEntry) × ℕ × ℕ × ℕ :=
  (s.fifo, s.fifo_read_ptr, s.fifo_write_ptr, s.fifo_entries)

/-- A host-visible FIFO operation: one push of a (command, data) pair, or
one bounded drain call (`pvr_3d_process_fifo`). -/
inductive FifoOp
  | push (command data : ℕ)
  | drain

/-- One step of the FIFO operation runner, threading the state together
with the number of accepted pushes and the number of processed entries. -/
def fifoStep (st : PvrState × ℕ × ℕ) (op : FifoOp) : PvrState × ℕ × ℕ :=
  match op with
  | .push c d =>
    (pvr_3d_push_fifo st.1 c d,
     st.2.1 + (if st.1.fifo_entries ≥ 4096 then 0 else 1), st.2.2)
  | .drain =>
    ((processFifoAux 32 st.1).1, st.2.1, st.2.2 + (processFifoAux 32 st.1).2)

/-- Run a sequence of FIFO operations from a state, counting accepted
pushes and processed entries. -/
def runFifoOps (ops : List FifoOp) (s : PvrState) : PvrState × ℕ × ℕ :=
  ops.foldl fifoStep (s, 0, 0)

/-- A state whose FIFO is exactly at capacity. -/
def fullFifoState : PvrState := { baseState with fifo_entries := 4096 }

/-- A state holding exactly one queued (unknown, hence ignored) command. -/
def oneEntryState : PvrState := { baseState with fifo_entries := 1 }

/-- Assembly-relevant projection of the state: everything the vertex
commands and polygon finalization read or write except the tiles. -/
def assemView (s : PvrState) :
    ℕ × (ℕ → PvrPolygon) × ℕ × (ℕ → PvrVertex) × (ℕ → PvrTexture) × ℕ × ℕ × ℕ × ℕ :=
  (s.num_polygons, s.polygon_buffer, s.current_vertex, s.vertex_buffer,
   s.textures, s.current_texture, s.poly_control, s.fb_width, s.fb_height)

/-- The vertex buffer after a vertex command stores the decoded position
into the open slot. -/
def storeVertex (s : PvrState) (d : ℕ) : ℕ → PvrVertex :=
  Function.update s.vertex_buffer s.current_vertex
    (decodeVertex s.fb_width s.fb_height d (s.vertex_buffer s.current_vertex))

/-- The vertex buffer after three consecutive vertex commands with data
words `d0 d1 d2`, starting from an empty open-vertex slot. -/
def assembledVB (s : PvrState) (d0 d1 d2 : ℕ) : ℕ → PvrVertex :=
  Function.update (Function.update (Function.update s.vertex_buffer
    0 (decodeVertex s.fb_width s.fb_height d0 (s.vertex_buffer 0)))
    1 (decodeVertex s.fb_width s.fb_height d1 (s.vertex_buffer 1)))
    2 (decodeVertex s.fb_width s.fb_height d2 (s.vertex_buffer 2))

/-- The polygon that three vertex commands assemble: the three decoded
vertices, the current texture address, the current polygon-control flags,
and the z-sort key computed from the three decoded depths. -/
def assembledPoly (s : PvrState) (d0 d1 d2 : ℕ) : PvrPolygon :=
  { num_vertices := 3
    vertices := fun i => assembledVB s d0 d1 d2 i
    texture_addr := (s.textures s.current_texture).addr
    control_flags := s.poly_control
    z_sort_value := u32OfRat ((decodeVZ d0 + decodeVZ d1 + decodeVZ d2) * 1365) }

/-- A concrete state whose FIFO holds exactly three vertex commands. -/
def threeVtxState : PvrState :=
  { baseState with
      fifo_entries := 3
      fifo := fun _ => ⟨1, 2148532224⟩
      fb_width := 640
      fb_height := 480 }

/-- The rounding the claim text postulates for the z-sort key:
round-half-up to the nearest integer. -/
def roundNearest (q : ℚ) : ℤ := ⌊q + 1/2⌋

/-- A vertex whose depth is the smallest positive encodable value. -/
def zLowVertex : PvrVertex := { zeroVertex with z := 1/4096 }

/-- A state about to finalize a polygon whose three depths are 1/4096. -/
def zLowState : PvrState := { baseState with vertex_buffer := fun _ => zLowVertex }

/-- A state about to finalize a polygon whose three depths are 1/2. -/
def zHalfState : PvrState :=
  { baseState with vertex_buffer := fun _ => { zeroVertex with z := 1/2 } }

/-- A triangle whose bounding box is [0,10] x [0,10]. -/
def c1Poly : PvrPolygon :=
  { num_vertices := 3
    vertices := fun i =>
      if i = 0 then zeroVertex
      else if i = 1 then { zeroVertex with x := 10 }
      else { zeroVertex with y := 10 }
    texture_addr := 0
    control_flags := 0
    z_sort_value := 0 }

/-- A 2 x 2 tile grid of 32-pixel tiles holding `c1Poly`. -/
def c1State : PvrState :=
  { baseState with
      polygon_buffer := fun _ => c1Poly
      num_tiles_x := 2
      num_tiles_y := 2
      tile_size := 32 }

/-- A Z-tested triangle with vertices (0,0), (4,0), (0,4), all depths 1. -/
def c7Poly : PvrPolygon :=
  { num_vertices := 3
    vertices := fun i =>
      if i = 0 then { zeroVertex with z := 1 }
      else if i = 1 then { zeroVertex with x := 4, z := 1 }
      else { zeroVertex with y := 4, z := 1 }
    texture_addr := 0
    control_flags := 1
    z_sort_value := 0 }

/-- A state whose Z-buffer already holds the maximal encoded depth. -/
def c7DeepState : PvrState := { baseState with z_buffer := fun _ => 65535 }

/-- Host-side projection the rasterizer never touches: tile-grid
dimensions, the status register and the render-timer delay. -/
def hostView (s : PvrState) : ℕ × ℕ × ℕ × ℕ :=
  (s.num_tiles_x, s.num_tiles_y, s.status_reg, s.render_timer)

/-- A state whose FIFO holds exactly one render-start command. -/
def c9State : PvrState :=
  { baseState with fifo_entries := 1, fifo := fun _ => ⟨0x10, 0⟩ }

/-- A state with a stale color command (0x03) still queued in the FIFO. -/
def staleColorState : PvrState :=
  { baseState with
      fifo := fun _ => ⟨3, 255⟩
      fifo_entries := 1
      fifo_write_ptr := 1 }

theorem testBit_bitSet (n i j : ℕ) :
    (bitSet n i).testBit j = (n.testBit j || (2 ^ i).testBit j) := by
  simp [bitSet, Nat.one_shiftLeft, Nat.testBit_or]

theorem testBit_bitClear32 (n i j : ℕ) :
    (bitClear32 n i).testBit j = (n.testBit j && (0xFFFFFFFF ^^^ 2 ^ i).testBit j) := by
  simp [bitClear32, Nat.one_shiftLeft, Nat.testBit_and]

/-- The legacy decode chain of `pvr_3d_write` is dead code: every range
guard requires an address of at least `PVR_REG_BASE = 0x00100000`, but the
address was masked to 20 bits first. -/
theorem pvr_3d_write_legacy_dead (s : PvrState) (addr val : ℕ) (h : addr < 1048576) :
    pvr_3d_write_legacy s addr val = s := by
  unfold pvr_3d_write_legacy
  rw [if_neg (by omega), if_neg (by omega), if_neg (by omega), if_neg (by omega),
    if_neg (by omega)]

/-- C2: the banked register interface is authoritative.  `pvr_3d_read` is
exactly the banked `pvr_reg_read` on the masked address (the legacy read
switch sits after an early `return` and is unreachable), and
`pvr_3d_write` has exactly the effect of the banked `pvr_reg_write` on the
masked address: the legacy write decode chain that follows it never fires,
because the 20-bit masked address is below every legacy range guard. -/
theorem banked_interface_authoritative (s : PvrState) (addr val : ℕ) :
    pvr_3d_read s addr = pvr_reg_read s (addr % 1048576) ∧
    pvr_3d_write s addr val = pvr_reg_write s (addr % 1048576) val := by
  refine ⟨rfl, ?_⟩
  unfold pvr_3d_write
  exact pvr_3d_write_legacy_dead _ _ _ (Nat.mod_lt _ (by norm_num))

/-- C8: a register access at an address whose low 2 bits are non-zero is
rejected: the write changes no state at all, and the read returns the
sentinel 0xFFFFFFFF leaving the state unchanged. -/
theorem unaligned_access_rejected (s : PvrState) (addr val : ℕ) (h : addr % 4 ≠ 0) :
    pvr_reg_write s addr val = s ∧ pvr_reg_read s addr = (0xFFFFFFFF, s) := by
  have h4 : (addr % 4294967296) &&& 0xFFF &&& 3 ≠ 0 := by
    have e1 : (addr % 4294967296) &&& 0xFFF = addr % 4294967296 % 4096 :=
      Nat.and_pow_two_sub_one_eq_mod _ 12
    have e2 : addr % 4294967296 % 4096 &&& 3 = addr % 4294967296 % 4096 % 4 :=
      Nat.and_pow_two_sub_one_eq_mod _ 2
    rw [e1, e2]
    have : addr % 4294967296 % 4096 % 4 = addr % 4 := by omega
    rw [this]; exact h
  constructor
  · unfold pvr_reg_write
    rw [if_pos h4]
  · unfold pvr_reg_read
    rw [if_pos h4]

/-- Witness for C8 at a concrete unaligned address. -/
theorem unaligned_access_rejected_witness :
    (2 : ℕ) % 4 ≠ 0 ∧
    (pvr_reg_write baseState 2 5 = baseState ∧ pvr_reg_read baseState 2 = (0xFFFFFFFF, baseState)) :=
  ⟨by decide, unaligned_access_rejected baseState 2 5 (by decide)⟩

/-- C3: a DMA transfer whose (clamped) parameters fail the bounds check
against video memory copies nothing — VRAM is unchanged — yet afterwards
`dma_status` has the done bit set and the busy bit clear, and so does the
banked DMA status word, exactly as after a successful transfer. -/
theorem pvr_reg_dma_complete_memory_size (s : PvrState) :
    (pvr_reg_dma_complete s).memory_size = s.memory_size := rfl

theorem pvr_reg_dma_complete_vram (s : PvrState) :
    (pvr_reg_dma_complete s).vram = s.vram := rfl

theorem pvr_reg_dma_complete_dma_status (s : PvrState) :
    (pvr_reg_dma_complete s).dma_status = s.dma_status := rfl

theorem pvr_reg_dma_complete_regs_dma (s : PvrState) :
    (pvr_reg_dma_complete s).regs.dma = Function.update s.regs.dma 1
      (bitSet (bitClear32 (s.regs.dma 1) 0) 1) := rfl

/-- The DMA completion status word update sets the done bit (bit 1) and
clears the busy bit (bit 0). -/
theorem dmaDoneBits (d : ℕ) :
    (bitSet (bitClear32 d 0) 1).testBit 1 = true ∧
    (bitSet (bitClear32 d 0) 1).testBit 0 = false := by
  constructor
  · rw [testBit_bitSet]
    have h1 : ((2 : ℕ) ^ 1).testBit 1 = true := by decide
    rw [h1, Bool.or_true]
  · rw [testBit_bitSet, testBit_bitClear32]
    have h1 : ((0xFFFFFFFF ^^^ 2 ^ 0 : ℕ)).testBit 0 = false := by decide
    have h2 : ((2 : ℕ) ^ 1).testBit 0 = false := by decide
    rw [h1, h2, Bool.and_false, Bool.or_false]

theorem dma_out_of_range_silent (s : PvrState)
    (h : ¬ (s.dma_src_addr < s.memory_size ∧ s.dma_dest_addr < s.memory_size ∧
      (s.dma_dest_addr + (if s.dma_size > 16777216 then 16777216 else s.dma_size)) %
        4294967296 ≤ s.memory_size)) :
    (pvr_3d_dma_transfer s).vram = s.vram ∧
    ((pvr_3d_dma_transfer s).dma_status.testBit 1 = true ∧
     (pvr_3d_dma_transfer s).dma_status.testBit 0 = false) ∧
    (((pvr_3d_dma_transfer s).regs.dma 1).testBit 1 = true ∧
     ((pvr_3d_dma_transfer s).regs.dma 1).testBit 0 = false) := by
  have hd : pvr_3d_dma_transfer s =
      { pvr_reg_dma_complete s with
          status_reg := bitClear32 (pvr_reg_dma_complete s).status_reg 5,
          dma_status := bitSet (bitClear32 (pvr_reg_dma_complete s).dma_status 0) 1 } := by
    unfold pvr_3d_dma_transfer
    simp only [pvr_reg_dma_complete_memory_size]
    rw [if_neg h]
    rfl
  rw [hd]
  refine ⟨pvr_reg_dma_complete_vram s, ⟨(dmaDoneBits _).1, (dmaDoneBits _).2⟩, ?_, ?_⟩
  · show ((pvr_reg_dma_complete s).regs.dma 1).testBit 1 = true
    rw [pvr_reg_dma_complete_regs_dma, Function.update_same]
    exact (dmaDoneBits _).1
  · show ((pvr_reg_dma_complete s).regs.dma 1).testBit 0 = false
    rw [pvr_reg_dma_complete_regs_dma, Function.update_same]
    exact (dmaDoneBits _).2

/-- Witness for C3 at a concrete out-of-range DMA setup. -/
theorem dma_out_of_range_silent_witness :
    (¬ (dmaFailState.dma_src_addr < dmaFailState.memory_size ∧
      dmaFailState.dma_dest_addr < dmaFailState.memory_size ∧
      (dmaFailState.dma_dest_addr +
        (if dmaFailState.dma_size > 16777216 then 16777216 else dmaFailState.dma_size)) %
        4294967296 ≤ dmaFailState.memory_size)) ∧
    ((pvr_3d_dma_transfer dmaFailState).vram = dmaFailState.vram ∧
    ((pvr_3d_dma_transfer dmaFailState).dma_status.testBit 1 = true ∧
     (pvr_3d_dma_transfer dmaFailState).dma_status.testBit 0 = false) ∧
    (((pvr_3d_dma_transfer dmaFailState).regs.dma 1).testBit 1 = true ∧
     ((pvr_3d_dma_transfer dmaFailState).regs.dma 1).testBit 0 = false)) :=
  ⟨by decide, dma_out_of_range_silent dmaFailState (by decide)⟩

theorem fifoView_foldl {α : Type} (f : PvrState → α → PvrState) (l : List α)
    (hf : ∀ s x, fifoView (f s x) = fifoView s) :
    ∀ s : PvrState, fifoView (l.foldl f s) = fifoView s := by
  induction l with
  | nil => intro s; rfl
  | cons x xs ih => intro s; rw [List.foldl_cons, ih, hf]

theorem fifoView_writePixel (s : PvrState) (color x y : ℕ) :
    fifoView (writePixel s color x y) = fifoView s := by
  unfold writePixel
  split
  · rfl
  · split
    · rfl
    · split <;> rfl

theorem fifoView_drawPixel (s : PvrState) (poly : PvrPolygon) (inv_area : ℚ) (x y : ℕ) :
    fifoView (drawPixel s poly inv_area x y) = fifoView s := by
  unfold drawPixel
  dsimp only
  repeat' split
  all_goals try rfl
  all_goals rw [fifoView_writePixel]
  all_goals rfl

theorem fifoView_draw_triangle (s : PvrState) (poly : PvrPolygon) :
    fifoView (pvr_3d_draw_triangle s poly) = fifoView s := by
  unfold pvr_3d_draw_triangle
  dsimp only
  split
  · rfl
  · exact fifoView_foldl _ _
      (fun s dy => fifoView_foldl _ _ (fun s dx => fifoView_drawPixel _ _ _ _ _) s) s

theorem fifoView_render_polygon (s : PvrState) (pidx : ℕ) :
    fifoView (pvr_3d_render_polygon s pidx) = fifoView s := by
  unfold pvr_3d_render_polygon
  dsimp only
  split
  · split
    · rfl
    · exact fifoView_draw_triangle _ _
  · exact fifoView_draw_triangle _ _

theorem fifoView_render_tile (s : PvrState) (tidx : ℕ) :
    fifoView (pvr_3d_render_tile s tidx) = fifoView s := by
  unfold pvr_3d_render_tile
  dsimp only
  exact fifoView_foldl _ _ (fun s p => fifoView_render_polygon s p) _

theorem fifoView_renderTilesLoop (s : PvrState) :
    fifoView (renderTilesLoop s) = fifoView s := by
  unfold renderTilesLoop
  exact fifoView_foldl _ _
    (fun s y => fifoView_foldl _ _
      (fun s x => by
        try dsimp only
        split
        · exact fifoView_render_tile _ _
        · rfl) s) _

theorem fifoView_render_scene (s : PvrState) :
    fifoView (pvr_3d_render_scene s) = fifoView s := by
  unfold pvr_3d_render_scene
  dsimp only
  exact fifoView_renderTilesLoop _

theorem fifoView_tileAppend (pidx : ℕ) (s : PvrState) (idx : ℕ) :
    fifoView (tileAppend pidx s idx) = fifoView s := rfl

theorem fifoView_distribute (s : PvrState) (pidx : ℕ) :
    fifoView (pvr_3d_distribute_to_tiles s pidx) = fifoView s := by
  unfold pvr_3d_distribute_to_tiles
  exact fifoView_foldl _ _
    (fun s dy => fifoView_foldl _ _ (fun s dx => fifoView_tileAppend _ _ _) s) s

theorem fifoView_setup_polygon (s : PvrState) :
    fifoView (pvr_3d_setup_polygon s) = fifoView s := by
  unfold pvr_3d_setup_polygon
  dsimp only
  split
  · rfl
  · exact fifoView_distribute _ _

theorem fifoView_finishTriangle (s : PvrState) :
    fifoView (finishTriangle s) = fifoView s := by
  have h := fifoView_setup_polygon s
  exact h

theorem fifoView_startRender (s : PvrState) :
    fifoView (startRender s) = fifoView s := by
  have h := fifoView_render_scene { s with status_reg := bitSet (bitSet s.status_reg 0) 1 }
  exact h

theorem fifoView_execCommand (s : PvrState) (c d : ℕ) :
    fifoView (execCommand s c d) = fifoView s := by
  unfold execCommand
  try dsimp only
  repeat' split
  all_goals try rfl
  all_goals first
    | exact fifoView_finishTriangle _
    | exact fifoView_startRender _

theorem fifoAdvance_entries (s : PvrState) :
    (fifoAdvance s).fifo_entries = s.fifo_entries - 1 := by
  unfold fifoAdvance
  try dsimp only
  split <;> rfl

theorem fifoAdvance_empty_bit (s : PvrState) (h : (fifoAdvance s).fifo_entries = 0) :
    ((fifoAdvance s).status_reg).testBit 3 = true := by
  unfold fifoAdvance at h ⊢
  try dsimp only at h ⊢
  split at h
  · rw [if_pos (by assumption), testBit_bitSet,
      show ((2 : ℕ) ^ 3).testBit 3 = true from by decide, Bool.or_true]
  · exact absurd h (by assumption)

theorem processFifoAux_of_empty (fuel : ℕ) (s : PvrState) (h : s.fifo_entries = 0) :
    processFifoAux fuel s = (s, 0) := by
  cases fuel with
  | zero => rfl
  | succ n => unfold processFifoAux; rw [if_pos h]

theorem processFifoAux_step (fuel : ℕ) (s : PvrState) (h : s.fifo_entries ≠ 0) :
    processFifoAux (fuel + 1) s =
      ((processFifoAux fuel (fifoAdvance (execCommand s (s.fifo s.fifo_read_ptr).command
          (s.fifo s.fifo_read_ptr).data))).1,
       (processFifoAux fuel (fifoAdvance (execCommand s (s.fifo s.fifo_read_ptr).command
          (s.fifo s.fifo_read_ptr).data))).2 + 1) := by
  conv_lhs => rw [processFifoAux]
  rw [if_neg h]

theorem processFifoAux_entries (fuel : ℕ) : ∀ s : PvrState,
    (processFifoAux fuel s).1.fifo_entries + (processFifoAux fuel s).2 = s.fifo_entries := by
  induction fuel with
  | zero => intro s; rfl
  | succ n ih =>
    intro s
    by_cases h : s.fifo_entries = 0
    · rw [processFifoAux_of_empty _ _ h]; simp [h]
    · rw [processFifoAux_step n s h]
      dsimp only
      have hE : (execCommand s (s.fifo s.fifo_read_ptr).command
          (s.fifo s.fifo_read_ptr).data).fifo_entries = s.fifo_entries := by
        have := congrArg (fun v => v.2.2.2) (fifoView_execCommand s
          (s.fifo s.fifo_read_ptr).command (s.fifo s.fifo_read_ptr).data)
        simpa [fifoView] using this
      have he : (fifoAdvance (execCommand s (s.fifo s.fifo_read_ptr).command
          (s.fifo s.fifo_read_ptr).data)).fifo_entries = s.fifo_entries - 1 := by
        rw [fifoAdvance_entries, hE]
      have := ih (fifoAdvance (execCommand s (s.fifo s.fifo_read_ptr).command
        (s.fifo s.fifo_read_ptr).data))
      rw [he] at this
      omega

theorem processFifoAux_empty_bit (fuel : ℕ) : ∀ s : PvrState, 0 < s.fifo_entries →
    (processFifoAux fuel s).1.fifo_entries = 0 →
    ((processFifoAux fuel s).1.status_reg).testBit 3 = true := by
  induction fuel with
  | zero =>
    intro s h1 h2
    have hz : (processFifoAux 0 s).1 = s := rfl
    rw [hz] at h2
    omega
  | succ n ih =>
    intro s h1 h2
    rw [processFifoAux_step n s (by omega)] at h2 ⊢
    dsimp only at h2 ⊢
    by_cases hc : (fifoAdvance (execCommand s (s.fifo s.fifo_read_ptr).command
        (s.fifo s.fifo_read_ptr).data)).fifo_entries = 0
    · rw [processFifoAux_of_empty n _ hc] at h2 ⊢
      exact fifoAdvance_empty_bit _ hc
    · exact ih _ (by omega) h2

theorem push_fifo_entries (s : PvrState) (c d : ℕ) :
    (pvr_3d_push_fifo s c d).fifo_entries =
      if s.fifo_entries ≥ 4096 then s.fifo_entries else s.fifo_entries + 1 := by
  unfold pvr_3d_push_fifo
  try dsimp only
  split
  · rfl
  · split <;> rfl

theorem fifoStep_inv (st : PvrState × ℕ × ℕ) (op : FifoOp)
    (h : st.1.fifo_entries + st.2.2 = st.2.1 ∧ st.1.fifo_entries ≤ 4096) :
    (fifoStep st op).1.fifo_entries + (fifoStep st op).2.2 = (fifoStep st op).2.1 ∧
    (fifoStep st op).1.fifo_entries ≤ 4096 := by
  cases op with
  | push c d =>
    simp only [fifoStep, push_fifo_entries]
    split
    · simpa using ⟨by omega, by omega⟩
    · constructor <;> [omega; omega]
  | drain =>
    have := processFifoAux_entries 32 st.1
    exact ⟨by simp only [fifoStep]; omega, by simp only [fifoStep]; omega⟩

theorem foldl_fifoStep_inv (ops : List FifoOp) : ∀ st : PvrState × ℕ × ℕ,
    st.1.fifo_entries + st.2.2 = st.2.1 ∧ st.1.fifo_entries ≤ 4096 →
    (ops.foldl fifoStep st).1.fifo_entries + (ops.foldl fifoStep st).2.2 =
      (ops.foldl fifoStep st).2.1 ∧
    (ops.foldl fifoStep st).1.fifo_entries ≤ 4096 := by
  induction ops with
  | nil => intro st h; exact h
  | cons op rest ih => intro st h; exact ih _ (fifoStep_inv st op h)

/-- C4: over every sequence of pushes and drains from a reset pipeline
the FIFO entry counter equals accepted pushes minus processed entries and
never exceeds the capacity 4096; a push at capacity is dropped whole, the
only change being the raised full flag (status bit 4); and a drain that
brings the counter to 0 leaves the empty flag (status bit 3) set. -/
theorem fifo_counter_invariant :
    (∀ (ops : List FifoOp) (s0 : PvrState),
      (runFifoOps ops (pvr_3d_reset s0)).1.fifo_entries + (runFifoOps ops (pvr_3d_reset s0)).2.2 =
        (runFifoOps ops (pvr_3d_reset s0)).2.1 ∧
      (runFifoOps ops (pvr_3d_reset s0)).1.fifo_entries ≤ 4096) ∧
    (∀ (s : PvrState) (c d : ℕ), s.fifo_entries = 4096 →
      pvr_3d_push_fifo s c d = { s with status_reg := bitSet s.status_reg 4 }) ∧
    (∀ s : PvrState, 0 < s.fifo_entries → (pvr_3d_process_fifo s).fifo_entries = 0 →
      ((pvr_3d_process_fifo s).status_reg).testBit 3 = true) := by
  refine ⟨fun ops s0 => ?_, fun s c d h => ?_, fun s h1 h2 => ?_⟩
  · refine foldl_fifoStep_inv ops _ ⟨rfl, ?_⟩
    show (pvr_3d_reset s0).fifo_entries ≤ 4096
    have h0 : (pvr_3d_reset s0).fifo_entries = 0 := rfl
    omega
  · unfold pvr_3d_push_fifo
    rw [if_pos (by omega)]
  · exact processFifoAux_empty_bit 32 s h1 h2

/-- Witness for C4: a push-then-drain sequence from reset, a concrete
full-FIFO push, and a concrete drain to empty. -/
theorem fifo_counter_invariant_witness :
    ((runFifoOps [FifoOp.push 9 7, FifoOp.drain] (pvr_3d_reset baseState)).1.fifo_entries +
        (runFifoOps [FifoOp.push 9 7, FifoOp.drain] (pvr_3d_reset baseState)).2.2 =
      (runFifoOps [FifoOp.push 9 7, FifoOp.drain] (pvr_3d_reset baseState)).2.1) ∧
    ((fullFifoState.fifo_entries = 4096) ∧
      pvr_3d_push_fifo fullFifoState 9 7 =
        { fullFifoState with status_reg := bitSet fullFifoState.status_reg 4 }) ∧
    ((0 < oneEntryState.fifo_entries) ∧
      ((pvr_3d_process_fifo oneEntryState).fifo_entries = 0) ∧
      ((pvr_3d_process_fifo oneEntryState).status_reg).testBit 3 = true) :=
  ⟨(fifo_counter_invariant.1 [FifoOp.push 9 7, FifoOp.drain] baseState).1,
   ⟨rfl, fifo_counter_invariant.2.1 fullFifoState 9 7 rfl⟩,
   ⟨by decide, by decide, fifo_counter_invariant.2.2 oneEntryState (by decide) (by decide)⟩⟩

theorem assemView_foldl {α : Type} (f : PvrState → α → PvrState) (l : List α)
    (hf : ∀ s x, assemView (f s x) = assemView s) :
    ∀ s : PvrState, assemView (l.foldl f s) = assemView s := by
  induction l with
  | nil => intro s; rfl
  | cons x xs ih => intro s; rw [List.foldl_cons, ih, hf]

theorem assemView_tileAppend (pidx : ℕ) (s : PvrState) (idx : ℕ) :
    assemView (tileAppend pidx s idx) = assemView s := rfl

theorem assemView_distribute (s : PvrState) (pidx : ℕ) :
    assemView (pvr_3d_distribute_to_tiles s pidx) = assemView s := by
  unfold pvr_3d_distribute_to_tiles
  exact assemView_foldl _ _
    (fun s dy => assemView_foldl _ _ (fun s dx => assemView_tileAppend _ _ _) s) s

theorem distribute_num_polygons (s : PvrState) (pidx : ℕ) :
    (pvr_3d_distribute_to_tiles s pidx).num_polygons = s.num_polygons :=
  congrArg (fun v => v.1) (assemView_distribute s pidx)

theorem distribute_polygon_buffer (s : PvrState) (pidx : ℕ) :
    (pvr_3d_distribute_to_tiles s pidx).polygon_buffer = s.polygon_buffer :=
  congrArg (fun v => v.2.1) (assemView_distribute s pidx)

theorem distribute_current_vertex (s : PvrState) (pidx : ℕ) :
    (pvr_3d_distribute_to_tiles s pidx).current_vertex = s.current_vertex :=
  congrArg (fun v => v.2.2.1) (assemView_distribute s pidx)

/-- Characterization of `finishTriangle` below the polygon-buffer cap:
one new polygon (`newPoly`) is stored at the old count, the count rises
by one, and the open-vertex count resets to 0. -/
theorem finishTriangle_spec (s : PvrState) (hnp : s.num_polygons < 2048) :
    (finishTriangle s).num_polygons = s.num_polygons + 1 ∧
    (finishTriangle s).polygon_buffer =
      Function.update s.polygon_buffer s.num_polygons (newPoly s) ∧
    (finishTriangle s).current_vertex = 0 := by
  unfold finishTriangle pvr_3d_setup_polygon
  rw [if_neg (by omega)]
  refine ⟨?_, ?_, rfl⟩
  · show (pvr_3d_distribute_to_tiles _ _).num_polygons + 1 = s.num_polygons + 1
    rw [distribute_num_polygons]
  · show (pvr_3d_distribute_to_tiles _ _).polygon_buffer = _
    rw [distribute_polygon_buffer]

/-- A vertex command before the third vertex: store the decoded position
into the open slot and advance the open-vertex count. -/
theorem execCommand_vertex_acc (s : PvrState) (d : ℕ) (h : s.current_vertex + 1 < 3) :
    execCommand s 1 d =
      { s with vertex_buffer := storeVertex s d, current_vertex := s.current_vertex + 1 } := by
  unfold execCommand storeVertex
  rw [if_pos rfl]
  dsimp only
  rw [if_neg (by omega)]

/-- The third vertex command: store the decoded position and finalize. -/
theorem execCommand_vertex_fin (s : PvrState) (d : ℕ) (h : s.current_vertex + 1 ≥ 3) :
    execCommand s 1 d =
      finishTriangle
        { s with vertex_buffer := storeVertex s d, current_vertex := s.current_vertex + 1 } := by
  unfold execCommand storeVertex
  rw [if_pos rfl]
  dsimp only
  rw [if_pos h]

/-- The FIFO bookkeeping step changes only the read cursor, entry count
and status bits. -/
theorem fifoAdvance_proj (s : PvrState) :
    (fifoAdvance s).fifo = s.fifo ∧
    (fifoAdvance s).fifo_read_ptr = (s.fifo_read_ptr + 1) % 4096 ∧
    (fifoAdvance s).num_polygons = s.num_polygons ∧
    (fifoAdvance s).polygon_buffer = s.polygon_buffer ∧
    (fifoAdvance s).current_vertex = s.current_vertex ∧
    (fifoAdvance s).vertex_buffer = s.vertex_buffer ∧
    (fifoAdvance s).textures = s.textures ∧
    (fifoAdvance s).current_texture = s.current_texture ∧
    (fifoAdvance s).poly_control = s.poly_control ∧
    (fifoAdvance s).fb_width = s.fb_width ∧
    (fifoAdvance s).fb_height = s.fb_height := by
  unfold fifoAdvance
  dsimp only
  split <;>
    exact ⟨rfl, rfl, rfl, rfl, rfl, rfl, rfl, rfl, rfl, rfl, rfl⟩

theorem finishTriangle_fifo_entries (s : PvrState) :
    (finishTriangle s).fifo_entries = s.fifo_entries :=
  congrArg (fun v => v.2.2.2) (fifoView_finishTriangle s)

theorem finishTriangle_current_vertex (s : PvrState) :
    (finishTriangle s).current_vertex = 0 := rfl

theorem finishTriangle_num_polygons (s : PvrState) :
    (finishTriangle s).num_polygons =
      if s.num_polygons ≥ 2048 then s.num_polygons else s.num_polygons + 1 := by
  unfold finishTriangle pvr_3d_setup_polygon
  dsimp only
  split
  · rfl
  · show (pvr_3d_distribute_to_tiles _ _).num_polygons + 1 = _
    rw [distribute_num_polygons]

theorem finishTriangle_polygon_buffer (s : PvrState) :
    (finishTriangle s).polygon_buffer =
      if s.num_polygons ≥ 2048 then s.polygon_buffer
      else Function.update s.polygon_buffer s.num_polygons (newPoly s) := by
  unfold finishTriangle pvr_3d_setup_polygon
  dsimp only
  split
  · rfl
  · show (pvr_3d_distribute_to_tiles _ _).polygon_buffer = _
    rw [distribute_polygon_buffer]

theorem fifoAdvance_ne (s : PvrState) (h : s.fifo_entries - 1 ≠ 0) :
    fifoAdvance s =
      { s with
        fifo_read_ptr := (s.fifo_read_ptr + 1) % 4096
        fifo_entries := s.fifo_entries - 1
        status_reg := bitClear32 s.status_reg 4 } := by
  unfold fifoAdvance
  dsimp only
  rw [if_neg h]

theorem fifoAdvance_last (s : PvrState) (h : s.fifo_entries - 1 = 0) :
    fifoAdvance s =
      { s with
        fifo_read_ptr := (s.fifo_read_ptr + 1) % 4096
        fifo_entries := s.fifo_entries - 1
        status_reg := bitSet (bitClear32 s.status_reg 4) 3 } := by
  unfold fifoAdvance
  dsimp only
  rw [if_pos h]

/-- Symbolic execution of `pvr_3d_process_fifo` on a FIFO holding exactly
three vertex commands, from a state with no open vertex and polygon
capacity left: exactly one polygon is produced. -/
theorem threeVertexRun (s : PvrState) (d0 d1 d2 : ℕ)
    (hcv : s.current_vertex = 0) (hnp : s.num_polygons < 2048)
    (hent : s.fifo_entries = 3)
    (h0 : s.fifo s.fifo_read_ptr = ⟨1, d0⟩)
    (h1 : s.fifo ((s.fifo_read_ptr + 1) % 4096) = ⟨1, d1⟩)
    (h2 : s.fifo ((s.fifo_read_ptr + 2) % 4096) = ⟨1, d2⟩) :
    (pvr_3d_process_fifo s).num_polygons = s.num_polygons + 1 ∧
    (pvr_3d_process_fifo s).current_vertex = 0 ∧
    (pvr_3d_process_fifo s).polygon_buffer s.num_polygons = assembledPoly s d0 d1 d2 ∧
    (∀ k, k ≠ s.num_polygons → (pvr_3d_process_fifo s).polygon_buffer k = s.polygon_buffer k) ∧
    (pvr_3d_process_fifo s).fifo_entries = 0 := by
  unfold pvr_3d_process_fifo
  rw [processFifoAux_step 31 s (by omega), h0]
  dsimp only
  rw [execCommand_vertex_acc s d0 (by omega),
    fifoAdvance_ne _ (by show s.fifo_entries - 1 ≠ 0; omega)]
  rw [processFifoAux_step 30 _ (by show s.fifo_entries - 1 ≠ 0; omega)]
  dsimp only
  rw [h1]
  dsimp only
  rw [execCommand_vertex_acc _ d1 (by show s.current_vertex + 1 + 1 < 3; omega),
    fifoAdvance_ne _ (by show s.fifo_entries - 1 - 1 ≠ 0; omega)]
  rw [processFifoAux_step 29 _ (by show s.fifo_entries - 1 - 1 ≠ 0; omega)]
  dsimp only
  rw [show ((s.fifo_read_ptr + 1) % 4096 + 1) % 4096 = (s.fifo_read_ptr + 2) % 4096 by
    omega, h2]
  dsimp only
  rw [execCommand_vertex_fin _ d2 (by show s.current_vertex + 1 + 1 + 1 ≥ 3; omega)]
  rw [fifoAdvance_last _ (by
    rw [finishTriangle_fifo_entries]
    show s.fifo_entries - 1 - 1 - 1 = 0
    omega)]
  rw [processFifoAux_of_empty 29 _ (by
    show (finishTriangle _).fifo_entries - 1 = 0
    rw [finishTriangle_fifo_entries]
    show s.fifo_entries - 1 - 1 - 1 = 0
    omega)]
  dsimp only
  refine ⟨?_, ?_, ?_, ?_, ?_⟩
  · rw [finishTriangle_num_polygons]
    dsimp only
    rw [if_neg (by omega)]
  · rw [finishTriangle_current_vertex]
  · rw [finishTriangle_polygon_buffer]
    dsimp only
    rw [if_neg (by omega), Function.update_same]
    unfold newPoly assembledPoly assembledVB storeVertex decodeVertex
    dsimp only
    rw [hcv]
    norm_num [Function.update_apply]
  · intro k hk
    rw [finishTriangle_polygon_buffer]
    dsimp only
    rw [if_neg (by omega), Function.update_noteq hk]
  · rw [finishTriangle_fifo_entries]
    dsimp only
    omega

/-- C6: processing exactly 3 vertex commands (FIFO command 0x01) from a
state with no open vertex and polygon capacity left produces exactly one
new polygon with `num_vertices = 3`, the three decoded vertices copied
in, the current texture address and polygon-control flags stamped on it,
and the open-vertex count reset to 0.  The capacity hypothesis reflects
the `PVR_MAX_POLYGONS` guard in `pvr_3d_setup_polygon`. -/
theorem three_vertex_commands_one_polygon (s : PvrState) (d0 d1 d2 : ℕ)
    (hcv : s.current_vertex = 0) (hnp : s.num_polygons < 2048)
    (hent : s.fifo_entries = 3)
    (h0 : s.fifo s.fifo_read_ptr = ⟨1, d0⟩)
    (h1 : s.fifo ((s.fifo_read_ptr + 1) % 4096) = ⟨1, d1⟩)
    (h2 : s.fifo ((s.fifo_read_ptr + 2) % 4096) = ⟨1, d2⟩) :
    (pvr_3d_process_fifo s).num_polygons = s.num_polygons + 1 ∧
    ((pvr_3d_process_fifo s).polygon_buffer s.num_polygons).num_vertices = 3 ∧
    ((pvr_3d_process_fifo s).polygon_buffer s.num_polygons).vertices 0 =
      decodeVertex s.fb_width s.fb_height d0 (s.vertex_buffer 0) ∧
    ((pvr_3d_process_fifo s).polygon_buffer s.num_polygons).vertices 1 =
      decodeVertex s.fb_width s.fb_height d1 (s.vertex_buffer 1) ∧
    ((pvr_3d_process_fifo s).polygon_buffer s.num_polygons).vertices 2 =
      decodeVertex s.fb_width s.fb_height d2 (s.vertex_buffer 2) ∧
    ((pvr_3d_process_fifo s).polygon_buffer s.num_polygons).texture_addr =
      (s.textures s.current_texture).addr ∧
    ((pvr_3d_process_fifo s).polygon_buffer s.num_polygons).control_flags = s.poly_control ∧
    (∀ k, k ≠ s.num_polygons → (pvr_3d_process_fifo s).polygon_buffer k = s.polygon_buffer k) ∧
    (pvr_3d_process_fifo s).current_vertex = 0 := by
  obtain ⟨a1, a2, a3, a4, a5⟩ := threeVertexRun s d0 d1 d2 hcv hnp hent h0 h1 h2
  refine ⟨a1, ?_, ?_, ?_, ?_, ?_, ?_, a4, a2⟩ <;> rw [a3] <;>
    simp [assembledPoly, assembledVB, Function.update_apply]

/-- Witness for C6 at a concrete three-entry FIFO. -/
theorem three_vertex_commands_one_polygon_witness :
    (threeVtxState.current_vertex = 0 ∧ threeVtxState.num_polygons < 2048 ∧
      threeVtxState.fifo_entries = 3) ∧
    ((pvr_3d_process_fifo threeVtxState).num_polygons = threeVtxState.num_polygons + 1 ∧
     ((pvr_3d_process_fifo threeVtxState).polygon_buffer threeVtxState.num_polygons).num_vertices
        = 3 ∧
     (pvr_3d_process_fifo threeVtxState).current_vertex = 0) := by
  have h := three_vertex_commands_one_polygon threeVtxState 2148532224 2148532224 2148532224
    rfl (by decide) rfl rfl rfl rfl
  exact ⟨⟨rfl, by decide, rfl⟩, h.1, h.2.1, h.2.2.2.2.2.2.2.2⟩

theorem ratTrunc_eq_floor (q : ℚ) (h : 0 ≤ q) : ratTrunc q = ⌊q⌋ := by
  unfold ratTrunc
  rw [Int.tdiv_eq_ediv (Rat.num_nonneg.mpr h) (by positivity), Rat.floor_def]

theorem u32OfRat_natCast_div (n m : ℕ) :
    u32OfRat ((n : ℚ) / (m : ℚ)) = n / m % 4294967296 := by
  unfold u32OfRat
  rw [ratTrunc_eq_floor _ (by positivity), Rat.floor_natCast_div_natCast]
  have h1 : ((n : ℤ)) / ((m : ℤ)) = ((n / m : ℕ) : ℤ) := by exact_mod_cast rfl
  rw [h1, Int.toNat_natCast]

/-- C5 counterexample: finalizing a polygon from depths z0 = z1 = z2 =
1/4096 stores z-sort key 0, while rounding (z0+z1+z2)*1365 = 4095/4096 to
the nearest integer gives 1.  The code truncates (a C cast), it does not
round. -/
theorem zsort_round_counterexample :
    (((pvr_3d_setup_polygon zLowState).polygon_buffer 0).z_sort_value : ℤ) ≠
      roundNearest (((zLowState.vertex_buffer 0).z + (zLowState.vertex_buffer 1).z +
        (zLowState.vertex_buffer 2).z) * 1365) := by
  have hk : ((pvr_3d_setup_polygon zLowState).polygon_buffer 0).z_sort_value = 0 := by
    unfold pvr_3d_setup_polygon
    rw [if_neg (by decide)]
    dsimp only
    rw [distribute_polygon_buffer]
    dsimp only
    rw [show zLowState.num_polygons = 0 from rfl, Function.update_same]
    show u32OfRat (((1 : ℚ)/4096 + 1/4096 + 1/4096) * 1365) = 0
    rw [show ((1 : ℚ)/4096 + 1/4096 + 1/4096) * 1365 = ((4095 : ℕ) : ℚ) / ((4096 : ℕ) : ℚ) by
      push_cast; norm_num]
    rw [u32OfRat_natCast_div]
  have hr : roundNearest (((zLowState.vertex_buffer 0).z + (zLowState.vertex_buffer 1).z +
      (zLowState.vertex_buffer 2).z) * 1365) = 1 := by
    show roundNearest (((1 : ℚ)/4096 + 1/4096 + 1/4096) * 1365) = 1
    unfold roundNearest
    rw [show ((1 : ℚ)/4096 + 1/4096 + 1/4096) * 1365 + 1/2 = ((6143 : ℕ) : ℚ) / ((4096 : ℕ) : ℚ)
      by push_cast; norm_num]
    rw [Rat.floor_natCast_div_natCast]
    decide
  rw [hk, hr]
  decide

/-- C5 (amended): the stored z-sort key is the C truncation-toward-zero
cast of `(z0 + z1 + z2) * 1365.0f`, not a rounding: for nonnegative
depths it equals `⌊(z0 + z1 + z2) * 1365⌋` (reduced mod 2^32 by the
`uint32_t` cast).  In particular depths 1/2 each give exactly 2047. -/
theorem zsort_key_truncates (s : PvrState) (hnp : s.num_polygons < 2048)
    (hz0 : 0 ≤ (s.vertex_buffer 0).z) (hz1 : 0 ≤ (s.vertex_buffer 1).z)
    (hz2 : 0 ≤ (s.vertex_buffer 2).z) :
    ((pvr_3d_setup_polygon s).polygon_buffer s.num_polygons).z_sort_value =
      (⌊((s.vertex_buffer 0).z + (s.vertex_buffer 1).z + (s.vertex_buffer 2).z) * 1365⌋).toNat %
        4294967296 := by
  unfold pvr_3d_setup_polygon
  rw [if_neg (by omega)]
  dsimp only
  rw [distribute_polygon_buffer]
  dsimp only
  rw [Function.update_same]
  show u32OfRat (((s.vertex_buffer 0).z + (s.vertex_buffer 1).z + (s.vertex_buffer 2).z) * 1365)
    = _
  unfold u32OfRat
  rw [ratTrunc_eq_floor _ (by positivity)]

/-- Witness for C5 (amended): depths 1/2 each store z-sort key 2047. -/
theorem zsort_key_truncates_witness :
    (zHalfState.num_polygons < 2048 ∧ 0 ≤ (zHalfState.vertex_buffer 0).z) ∧
    ((pvr_3d_setup_polygon zHalfState).polygon_buffer zHalfState.num_polygons).z_sort_value
      = 2047 := by
  refine ⟨⟨by decide, by norm_num [zHalfState, baseState, zeroVertex]⟩, ?_⟩
  rw [zsort_key_truncates zHalfState (by decide) (by norm_num [zHalfState, baseState, zeroVertex])
    (by norm_num [zHalfState, baseState, zeroVertex]) (by norm_num [zHalfState, baseState, zeroVertex])]
  rw [show ((zHalfState.vertex_buffer 0).z + (zHalfState.vertex_buffer 1).z +
      (zHalfState.vertex_buffer 2).z) * 1365 = ((4095 : ℕ) : ℚ) / ((2 : ℕ) : ℚ) by
    show ((1 : ℚ)/2 + 1/2 + 1/2) * 1365 = _
    push_cast; norm_num]
  rw [Rat.floor_natCast_div_natCast]
  decide

theorem tileAppend_num_tiles_x (pidx : ℕ) (s : PvrState) (idx : ℕ) :
    (tileAppend pidx s idx).num_tiles_x = s.num_tiles_x := rfl

/-- C1: the end-tile formula `(max + tile_size - 1) / tile_size` of
`pvr_3d_distribute_to_tiles` is used as an inclusive bound, so a triangle
whose bounding box is [0,10] x [0,10] on a 2 x 2 grid of 32-pixel tiles is
appended to all four tiles, not only to tile (0,0) as the claim states. -/
theorem tile_binning_overshoot :
    ((pvr_3d_distribute_to_tiles c1State 0).tiles 0).polys = [0] ∧
    ((pvr_3d_distribute_to_tiles c1State 0).tiles 1).polys = [0] ∧
    ((pvr_3d_distribute_to_tiles c1State 0).tiles 2).polys = [0] ∧
    ((pvr_3d_distribute_to_tiles c1State 0).tiles 3).polys = [0] := by
  have hd : pvr_3d_distribute_to_tiles c1State 0 =
      tileAppend 0 (tileAppend 0 (tileAppend 0 (tileAppend 0 c1State 0) 1) 2) 3 := by
    unfold pvr_3d_distribute_to_tiles
    norm_num [c1State, c1Poly, baseState, zeroVertex, ratTrunc,
      show (List.range 3).drop 1 = [1, 2] from by decide,
      show List.range 2 = [0, 1] from by decide,
      List.foldl_cons, List.foldl_nil, tileAppend_num_tiles_x,
      Rat.num_ofNat, Rat.den_ofNat,
      show Int.tdiv 0 32 = 0 from by decide,
      show Int.tdiv 41 32 = 1 from by decide,
      show ((List.range 2).flatMap fun a => [(a : ℤ)]) = [0, 1] from by decide,
      show (2 : ℤ).toNat = 2 from by decide,
      show (1 : ℤ).toNat = 1 from by decide,
      show (3 : ℤ).toNat = 3 from by decide,
      Int.toNat_ofNat]
  rw [hd]
  exact ⟨rfl, rfl, rfl, rfl⟩

theorem u16OfRat_natCast (n : ℕ) : u16OfRat ((n : ℚ)) = n % 65536 := by
  unfold u16OfRat
  rw [ratTrunc_eq_floor _ (by positivity), Int.floor_natCast, Int.toNat_natCast]

/-- C7: in the rasterizer loop body, with the Z-buffer control flag set
and the pixel covered, the pixel is rejected (no depth write, no color
write) exactly when its 16-bit fixed-point depth is greater than the
stored Z-buffer value; otherwise the Z-buffer entry is updated to the new
depth and the shaded pixel is written, so the smaller encoded depth wins. -/
theorem ztest_smaller_depth_wins (s : PvrState) (poly : PvrPolygon) (inv_area : ℚ) (x y : ℕ)
    (hz : poly.control_flags &&& 0x1 ≠ 0)
    (hcov : ¬(baryW0 poly inv_area x y < 0 ∨ baryW1 poly inv_area x y < 0 ∨
      baryW2 poly inv_area x y < 0)) :
    (pixelDepth poly inv_area x y > s.z_buffer (y * s.fb_width + x) →
      drawPixel s poly inv_area x y = s) ∧
    (¬(pixelDepth poly inv_area x y > s.z_buffer (y * s.fb_width + x)) →
      drawPixel s poly inv_area x y =
        writePixel
          { s with z_buffer := Function.update s.z_buffer (y * s.fb_width + x) (pixelDepth poly inv_area x y) }
          (shadeColor poly (baryW0 poly inv_area x y) (baryW1 poly inv_area x y)
            (baryW2 poly inv_area x y)) x y) := by
  unfold drawPixel
  dsimp only
  rw [if_neg hcov, if_pos hz]
  constructor
  · intro hgt
    rw [if_pos hgt]
  · intro hle
    rw [if_neg hle]

/-- Witness for C7 at pixel (0,0) of `c7Poly` (`inv_area = -1/16`): against
a Z-buffer holding 0 the pixel is rejected, against one holding 65535 the
depth is written and the pixel shaded. -/
theorem ztest_smaller_depth_wins_witness :
    (c7Poly.control_flags &&& 0x1 ≠ 0) ∧
    ¬(baryW0 c7Poly (-(1/16)) 0 0 < 0 ∨ baryW1 c7Poly (-(1/16)) 0 0 < 0 ∨
      baryW2 c7Poly (-(1/16)) 0 0 < 0) ∧
    drawPixel baseState c7Poly (-(1/16)) 0 0 = baseState ∧
    drawPixel c7DeepState c7Poly (-(1/16)) 0 0 =
      writePixel
        { c7DeepState with z_buffer := Function.update c7DeepState.z_buffer (0 * c7DeepState.fb_width + 0) (pixelDepth c7Poly (-(1/16)) 0 0) }
        (shadeColor c7Poly (baryW0 c7Poly (-(1/16)) 0 0) (baryW1 c7Poly (-(1/16)) 0 0)
          (baryW2 c7Poly (-(1/16)) 0 0)) 0 0 := by
  have hz : c7Poly.control_flags &&& 0x1 ≠ 0 := by decide
  have hcov : ¬(baryW0 c7Poly (-(1/16)) 0 0 < 0 ∨ baryW1 c7Poly (-(1/16)) 0 0 < 0 ∨
      baryW2 c7Poly (-(1/16)) 0 0 < 0) := by
    norm_num [baryW0, baryW1, baryW2, edge_function, c7Poly, zeroVertex]
  have harg : (baryW0 c7Poly (-(1/16)) 0 0 * (c7Poly.vertices 0).z +
      baryW1 c7Poly (-(1/16)) 0 0 * (c7Poly.vertices 1).z +
      baryW2 c7Poly (-(1/16)) 0 0 * (c7Poly.vertices 2).z) * 65535 = ((65535 : ℕ) : ℚ) := by
    norm_num [baryW0, baryW1, baryW2, edge_function, c7Poly, zeroVertex]
  have hd : pixelDepth c7Poly (-(1/16)) 0 0 = 65535 := by
    unfold pixelDepth
    rw [harg, u16OfRat_natCast]
  refine ⟨hz, hcov, ?_, ?_⟩
  · exact (ztest_smaller_depth_wins baseState c7Poly (-(1/16)) 0 0 hz hcov).1
      (by rw [hd]; norm_num [baseState])
  · exact (ztest_smaller_depth_wins c7DeepState c7Poly (-(1/16)) 0 0 hz hcov).2
      (by rw [hd]; norm_num [c7DeepState, baseState])

theorem hostView_foldl {α : Type} (f : PvrState → α → PvrState) (l : List α)
    (hf : ∀ s x, hostView (f s x) = hostView s) :
    ∀ s : PvrState, hostView (l.foldl f s) = hostView s := by
  induction l with
  | nil => intro s; rfl
  | cons x xs ih => intro s; rw [List.foldl_cons, ih, hf]

theorem hostView_writePixel (s : PvrState) (color x y : ℕ) :
    hostView (writePixel s color x y) = hostView s := by
  unfold writePixel
  split
  · rfl
  · split
    · rfl
    · split <;> rfl

theorem hostView_drawPixel (s : PvrState) (poly : PvrPolygon) (inv_area : ℚ) (x y : ℕ) :
    hostView (drawPixel s poly inv_area x y) = hostView s := by
  unfold drawPixel
  dsimp only
  repeat' split
  all_goals try rfl
  all_goals rw [hostView_writePixel]
  all_goals rfl

theorem hostView_draw_triangle (s : PvrState) (poly : PvrPolygon) :
    hostView (pvr_3d_draw_triangle s poly) = hostView s := by
  unfold pvr_3d_draw_triangle
  dsimp only
  split
  · rfl
  · exact hostView_foldl _ _
      (fun s dy => hostView_foldl _ _ (fun s dx => hostView_drawPixel _ _ _ _ _) s) s

theorem hostView_render_polygon (s : PvrState) (pidx : ℕ) :
    hostView (pvr_3d_render_polygon s pidx) = hostView s := by
  unfold pvr_3d_render_polygon
  dsimp only
  split
  · split
    · rfl
    · exact hostView_draw_triangle _ _
  · exact hostView_draw_triangle _ _

theorem hostView_render_tile (s : PvrState) (tidx : ℕ) :
    hostView (pvr_3d_render_tile s tidx) = hostView s := by
  unfold pvr_3d_render_tile
  dsimp only
  exact hostView_foldl _ _ (fun s p => hostView_render_polygon s p) _

theorem hostView_renderTilesLoop (s : PvrState) :
    hostView (renderTilesLoop s) = hostView s := by
  unfold renderTilesLoop
  exact hostView_foldl _ _
    (fun s y => hostView_foldl _ _
      (fun s x => by
        try dsimp only
        split
        · exact hostView_render_tile _ _
        · rfl) s) _

theorem hostView_render_scene (s : PvrState) :
    hostView (pvr_3d_render_scene s) = hostView s := by
  unfold pvr_3d_render_scene
  dsimp only
  exact hostView_renderTilesLoop _

theorem renderTilesLoop_num_tiles_x (s : PvrState) :
    (renderTilesLoop s).num_tiles_x = s.num_tiles_x := by
  have h := congrArg (fun v => v.1) (hostView_renderTilesLoop s)
  exact h

theorem renderTilesLoop_num_tiles_y (s : PvrState) :
    (renderTilesLoop s).num_tiles_y = s.num_tiles_y := by
  have h := congrArg (fun v => v.2.1) (hostView_renderTilesLoop s)
  exact h

theorem render_scene_status_reg (s : PvrState) :
    (pvr_3d_render_scene s).status_reg = s.status_reg := by
  have h := congrArg (fun v => v.2.2.1) (hostView_render_scene s)
  exact h

theorem render_scene_tiles_cleared (s : PvrState) (i : ℕ)
    (h : i < s.num_tiles_x * s.num_tiles_y) :
    ((pvr_3d_render_scene s).tiles i).polys = [] := by
  unfold pvr_3d_render_scene
  dsimp only
  split
  · rfl
  · rename_i hlt
    exact absurd (by rw [renderTilesLoop_num_tiles_x, renderTilesLoop_num_tiles_y]; exact h) hlt

theorem startRender_fifo_entries (s : PvrState) :
    (startRender s).fifo_entries = s.fifo_entries := by
  have h := congrArg (fun v => v.2.2.2) (fifoView_startRender s)
  exact h

theorem startRender_status_reg (s : PvrState) :
    (startRender s).status_reg = bitSet (bitSet s.status_reg 0) 1 := by
  have h := render_scene_status_reg { s with status_reg := bitSet (bitSet s.status_reg 0) 1 }
  exact h

theorem execCommand_render (s : PvrState) (d : ℕ) :
    execCommand s 0x10 d = startRender s := by
  unfold execCommand
  rw [if_neg (by decide), if_neg (by decide), if_neg (by decide), if_pos rfl]

theorem timerCallbackPre_status_reg (s : PvrState) :
    (timerCallbackPre s).status_reg = bitClear32 (bitClear32 s.status_reg 0) 1 := rfl

/-- C9: draining a FIFO holding exactly a render-start command performs
the whole scene render synchronously before `pvr_3d_process_fifo`
returns — the framebuffer and Z-buffer already equal the rendered scene,
the global and per-tile polygon counts are reset — while the running and
busy status bits are left set and the completion timer armed; the timer
callback later clears those bits and re-drains the FIFO. -/
theorem render_start_synchronous (s : PvrState) (d : ℕ)
    (hent : s.fifo_entries = 1) (hc : s.fifo s.fifo_read_ptr = ⟨0x10, d⟩) :
    (pvr_3d_process_fifo s).vram =
      (pvr_3d_render_scene { s with status_reg := bitSet (bitSet s.status_reg 0) 1 }).vram ∧
    (pvr_3d_process_fifo s).z_buffer =
      (pvr_3d_render_scene { s with status_reg := bitSet (bitSet s.status_reg 0) 1 }).z_buffer ∧
    (pvr_3d_process_fifo s).num_polygons = 0 ∧
    (∀ i, i < s.num_tiles_x * s.num_tiles_y → ((pvr_3d_process_fifo s).tiles i).polys = []) ∧
    (pvr_3d_process_fifo s).status_reg.testBit 0 = true ∧
    (pvr_3d_process_fifo s).status_reg.testBit 1 = true ∧
    (pvr_3d_process_fifo s).render_timer = 200 ∧
    (timerCallbackPre (pvr_3d_process_fifo s)).status_reg.testBit 0 = false ∧
    (timerCallbackPre (pvr_3d_process_fifo s)).status_reg.testBit 1 = false ∧
    pvr_3d_timer_callback (pvr_3d_process_fifo s) =
      pvr_3d_process_fifo (timerCallbackPre (pvr_3d_process_fifo s)) := by
  have key : pvr_3d_process_fifo s = fifoAdvance (startRender s) := by
    unfold pvr_3d_process_fifo
    rw [processFifoAux_step 31 s (by omega), hc]
    dsimp only
    rw [execCommand_render]
    rw [processFifoAux_of_empty 31 _ (by rw [fifoAdvance_entries, startRender_fifo_entries]; omega)]
  rw [key]
  rw [fifoAdvance_last _ (by rw [startRender_fifo_entries]; omega)]
  have hs : (startRender s).status_reg = bitSet (bitSet s.status_reg 0) 1 :=
    startRender_status_reg s
  refine ⟨rfl, rfl, rfl, ?_, ?_, ?_, rfl, ?_, ?_, rfl⟩
  · intro i hi
    exact render_scene_tiles_cleared _ i hi
  · show (bitSet (bitClear32 (startRender s).status_reg 4) 3).testBit 0 = true
    rw [hs, testBit_bitSet, testBit_bitClear32, testBit_bitSet, testBit_bitSet]
    simp [show ((2 : ℕ) ^ 0).testBit 0 = true from by decide,
      show ((0xFFFFFFFF ^^^ (2 : ℕ) ^ 4)).testBit 0 = true from by decide]
  · show (bitSet (bitClear32 (startRender s).status_reg 4) 3).testBit 1 = true
    rw [hs, testBit_bitSet, testBit_bitClear32, testBit_bitSet, testBit_bitSet]
    simp [show Nat.testBit 2 1 = true from by decide,
      show Nat.testBit 4294967279 1 = true from by decide]
  · rw [timerCallbackPre_status_reg, testBit_bitClear32, testBit_bitClear32]
    simp [show ((0xFFFFFFFF ^^^ (2 : ℕ) ^ 0)).testBit 0 = false from by decide]
  · rw [timerCallbackPre_status_reg, testBit_bitClear32]
    simp [show Nat.testBit 4294967293 1 = false from by decide]

/-- Witness for C9 at a concrete one-entry FIFO. -/
theorem render_start_synchronous_witness :
    (c9State.fifo_entries = 1 ∧ c9State.fifo c9State.fifo_read_ptr = ⟨0x10, 0⟩) ∧
    ((pvr_3d_process_fifo c9State).num_polygons = 0 ∧
     (pvr_3d_process_fifo c9State).status_reg.testBit 0 = true ∧
     (pvr_3d_process_fifo c9State).status_reg.testBit 1 = true ∧
     (pvr_3d_process_fifo c9State).render_timer = 200 ∧
     (timerCallbackPre (pvr_3d_process_fifo c9State)).status_reg.testBit 0 = false) := by
  have h := render_start_synchronous c9State 0 rfl rfl
  exact ⟨⟨rfl, rfl⟩, h.2.2.1, h.2.2.2.2.1, h.2.2.2.2.2.1, h.2.2.2.2.2.2.1,
    h.2.2.2.2.2.2.2.1⟩

/-- A write to the polygon COLOR data register (bank 1, offset 0x10)
stores the value in the bank and forwards it as FIFO command 0x04. -/
theorem reg_write_color (s : PvrState) (val : ℕ) :
    pvr_reg_write s 0x1010 val =
      pvr_3d_process_command
        { s with regs := { s.regs with poly := Function.update s.regs.poly 4 (val % 4294967296) } }
        0x04 (val % 4294967296) := by
  unfold pvr_reg_write
  rw [if_neg (by decide), if_neg (by decide), if_pos (by decide)]
  dsimp only
  rw [if_neg (by decide), if_neg (by decide), if_neg (by decide), if_pos (by decide)]
  exact rfl

/-- The command dispatcher ignores FIFO command 0x04. -/
theorem execCommand_ignored_cmd (s : PvrState) (d : ℕ) : execCommand s 4 d = s := by
  unfold execCommand
  rw [if_neg (by decide), if_neg (by decide), if_neg (by decide), if_neg (by decide)]

/-- C10 (amended): a COLOR register write from a state whose FIFO is empty
and whose cursors agree never changes the vertex buffer (so no vertex
color changes): the value is stored in the polygon bank and pushed as FIFO
command 0x04, which the dispatcher drops.  Without the emptiness
hypothesis the drain triggered by the write can consume stale entries —
see the counterexample. -/
theorem color_write_leaves_vertex_colors (s : PvrState) (val : ℕ)
    (hent : s.fifo_entries = 0) (hp : s.fifo_write_ptr = s.fifo_read_ptr) :
    (pvr_reg_write s 0x1010 val).vertex_buffer = s.vertex_buffer ∧
    (pvr_reg_write s 0x1010 val).regs.poly 4 = val % 4294967296 ∧
    (pvr_reg_write s 0x1010 val).fifo s.fifo_write_ptr = ⟨0x04, val % 4294967296⟩ := by
  rw [reg_write_color]
  unfold pvr_3d_process_command pvr_3d_push_fifo
  dsimp only
  rw [hent]
  simp only [if_neg (show ¬ ((0 : ℕ) ≥ 4096) from by decide),
    if_neg (show ¬ ((0 : ℕ) + 1 ≥ 4096) from by decide),
    if_pos (show (0 : ℕ) + 1 > 0 from by decide)]
  split
  · unfold pvr_3d_process_fifo
    rw [processFifoAux_step 31 _ (by show (0 : ℕ) + 1 ≠ 0; decide)]
    dsimp only
    rw [hp, Function.update_same]
    dsimp only
    rw [execCommand_ignored_cmd]
    rw [fifoAdvance_last _ (by show (0 : ℕ) + 1 - 1 = 0; decide)]
    rw [processFifoAux_of_empty 31 _ (by show (0 : ℕ) + 1 - 1 = 0; decide)]
    dsimp only
    refine ⟨rfl, ?_, ?_⟩
    · rw [Function.update_same]
    · rw [Function.update_same]
  · refine ⟨rfl, ?_, ?_⟩
    · dsimp only
      rw [Function.update_same]
    · dsimp only
      rw [Function.update_same]

/-- Witness for C10 (amended) at the all-zero state. -/
theorem color_write_leaves_vertex_colors_witness :
    (baseState.fifo_entries = 0 ∧ baseState.fifo_write_ptr = baseState.fifo_read_ptr) ∧
    ((pvr_reg_write baseState 0x1010 255).vertex_buffer = baseState.vertex_buffer ∧
     (pvr_reg_write baseState 0x1010 255).regs.poly 4 = 255 % 4294967296 ∧
     (pvr_reg_write baseState 0x1010 255).fifo baseState.fifo_write_ptr =
       ⟨0x04, 255 % 4294967296⟩) :=
  ⟨⟨rfl, rfl⟩, color_write_leaves_vertex_colors baseState 255 rfl rfl⟩

/-- C10 counterexample: from a state with a stale NORMAL/color command
(0x03) still queued, a write to the COLOR register (bank 1, offset 0x10)
does change a vertex color: the drain it triggers executes the stale
entry, which overwrites the open vertex's RGBA. -/
theorem color_write_stale_fifo_counterexample :
    ((pvr_reg_write staleColorState 0x1010 0).vertex_buffer 0).r ≠
      (staleColorState.vertex_buffer 0).r := by
  have h : ((pvr_reg_write staleColorState 0x1010 0).vertex_buffer 0).r =
      ((255 : ℕ) : ℚ) / 255 := rfl
  rw [h]
  norm_num [staleColorState, baseState, zeroVertex]

end Neon250
